import Mathlib

/-!
Shallow embedding of the SentinelV2 covert-mode core:

* `Backend` — the central lifecycle coordinator (`src/backend/src/blackout.py`,
  class `BlackoutCoordinator`) and the durable retry queue
  (`src/backend/src/queue.py`, class `QueueManager`), both operating on a
  relational store modelled as an explicit `CState` value.
* `Edge` — the local blackout controller
  (`src/edge-inference/src/blackout.py`, class `BlackoutController`) over an
  embedded single-table store modelled as `EdgeState`.
* `Burst` — the burst reconciliation protocol
  (`src/edge-inference/src/burst_transmission.py`,
  `transmit_queued_detections`), with network outcomes supplied by an oracle.

Timestamps are modelled as integer seconds together with a timezone-awareness
flag (`DT`): Python's `datetime.now(timezone.utc)` yields an aware value, while
values read back from SQLite may be naive; `replace(tzinfo=timezone.utc)`
changes only the flag, never the instant, which is exactly what the source's
normalization does.  SQL-level comparisons compare the stored instants.
Python exceptions (`ValueError`, SQLAlchemy's `NoResultFound` /
`MultipleResultsFound`) are modelled with `Except String`; an operation that
raises before `commit` leaves the store unchanged, so an erroring operation
returns no post-state.
-/

namespace Sentinel

/-- A datetime value: the instant in integer seconds, plus whether the value
carries timezone info (aware) or is naive. -/
structure DT where
  val : Int
  aware : Bool
deriving DecidableEq, Repr

/-- `d.replace(tzinfo=timezone.utc)` applied only when `d.tzinfo is None`:
the instant is unchanged, the value becomes aware (the source assumes naive
values are UTC). -/
def DT.normalizeUTC (d : DT) : DT :=
  if d.aware then d else { val := d.val, aware := true }

/-- An aware "now" as produced by `datetime.now(timezone.utc)`. -/
def dtNow (now : Int) : DT := { val := now, aware := true }

/-- `Result.scalar_one_or_none()`: `none` for zero rows, the row for one,
and `MultipleResultsFound` for more. -/
def scalarOneOrNone {α : Type} (l : List α) : Except String (Option α) :=
  match l with
  | [] => .ok none
  | [a] => .ok (some a)
  | _ :: _ :: _ => .error "MultipleResultsFound"

/-- `Result.scalar_one()`: the row for exactly one, otherwise
`NoResultFound` / `MultipleResultsFound`. -/
def scalarOne {α : Type} (l : List α) : Except String α :=
  match l with
  | [a] => .ok a
  | [] => .error "NoResultFound"
  | _ :: _ :: _ => .error "MultipleResultsFound"

/-- Insert `a` before the first element `b` of `l` with `le a b`. -/
def insertByKey {α : Type} (le : α → α → Bool) (a : α) : List α → List α
  | [] => [a]
  | b :: l => if le a b then a :: b :: l else b :: insertByKey le a l

/-- A stable insertion sort, modelling a SQL `ORDER BY` over the comparison
`le`: rows equal under the key keep their relative order. -/
def sortByKey {α : Type} (le : α → α → Bool) : List α → List α
  | [] => []
  | a :: l => insertByKey le a (sortByKey le l)

namespace Backend

/-- Row of table `nodes` (`src/backend/src/models.py`, class `Node`). -/
structure Node where
  id : Nat
  node_id : String
  status : String
  last_heartbeat : Option DT
deriving DecidableEq, Repr

/-- Row of table `blackout_events` (`models.py`, class `BlackoutEvent`,
plus the `duration_seconds` / `detections_transmitted` columns added by
migration `003_add_blackout_columns`). -/
structure BlackoutEvent where
  id : Nat
  node_id : Nat
  activated_at : DT
  deactivated_at : Option DT
  activated_by : Option String
  reason : Option String
  detections_queued : Int
  duration_seconds : Option Int
  detections_transmitted : Option Int
deriving DecidableEq, Repr

/-- Row of table `queue_items` (`models.py`, class `QueueItem`, plus the
`next_attempt_at` column added by migration `002_add_next_attempt_at`).
The payload is opaque to the queue and kept as a string.  The retry counter
is created at 0 and only ever incremented, hence `Nat`. -/
structure QueueItem where
  id : Nat
  node_id : Nat
  payload : String
  status : String
  retry_count : Nat
  created_at : DT
  processed_at : Option DT
  next_attempt_at : Option DT
deriving DecidableEq, Repr

/-- The central relational store: the three tables in insertion order, plus
the autoincrement counters for their primary keys. -/
structure CState where
  nodes : List Node
  events : List BlackoutEvent
  items : List QueueItem
  nextNodeId : Nat
  nextEventId : Nat
  nextItemId : Nat
deriving DecidableEq, Repr

/-- `select(Node).where(Node.node_id == node_id)`. -/
def selectNodeByNodeId (s : CState) (node_id : String) : List Node :=
  s.nodes.filter (fun n => n.node_id == node_id)

/-- `select(BlackoutEvent).where(node_id == rid).where(deactivated_at.is_(None))`. -/
def openEventsFor (s : CState) (rid : Nat) : List BlackoutEvent :=
  s.events.filter (fun e => e.node_id == rid && e.deactivated_at.isNone)

/-- `select(BlackoutEvent).where(node_id == rid).where(deactivated_at.is_not(None))`. -/
def closedEventsFor (s : CState) (rid : Nat) : List BlackoutEvent :=
  s.events.filter (fun e => e.node_id == rid && e.deactivated_at.isSome)

/-- `order_by(desc(BlackoutEvent.activated_at))`. -/
def sortByActivatedDesc (l : List BlackoutEvent) : List BlackoutEvent :=
  sortByKey (fun a b => decide (b.activated_at.val ≤ a.activated_at.val)) l

/-- Sort key for `desc(BlackoutEvent.deactivated_at)` on rows filtered to
`deactivated_at` non-null. -/
def deactKey (e : BlackoutEvent) : Int :=
  match e.deactivated_at with
  | some d => d.val
  | none => 0

/-- `order_by(desc(BlackoutEvent.deactivated_at))`. -/
def sortByDeactivatedDesc (l : List BlackoutEvent) : List BlackoutEvent :=
  sortByKey (fun a b => decide (deactKey b ≤ deactKey a)) l

/-- `main.py::register_node`: return the existing node for this `node_id`, or
insert a fresh `status="online"` row.  The primary key is modelled by the
autoincrement counter. -/
def register_node (s : CState) (now : Int) (node_id : String) :
    Except String (Node × CState) := do
  let existing ← scalarOneOrNone (selectNodeByNodeId s node_id)
  match existing with
  | some n => .ok (n, s)
  | none =>
    let node : Node :=
      { id := s.nextNodeId, node_id := node_id, status := "online",
        last_heartbeat := some (dtNow now) }
    .ok (node, { s with nodes := s.nodes ++ [node], nextNodeId := s.nextNodeId + 1 })

/-- `BlackoutCoordinator.activate_blackout` (`blackout.py` lines 29-76):
`ValueError` if the node is unknown or already `covert`; otherwise insert an
open `BlackoutEvent` (activation = now, operator, reason, queued count
defaulting to 0) and set the node's status to `covert`. -/
def activate_blackout (s : CState) (now : Int) (node_id : String)
    (operator_id : Option String) (reason : Option String) :
    Except String (BlackoutEvent × CState) := do
  let nodeOpt ← scalarOneOrNone (selectNodeByNodeId s node_id)
  match nodeOpt with
  | none => .error ("Node not found: " ++ node_id)
  | some node =>
    if node.status == "covert" then
      .error ("Node already in blackout: " ++ node_id)
    else
      let ev : BlackoutEvent :=
        { id := s.nextEventId, node_id := node.id,
          activated_at := dtNow now, deactivated_at := none,
          activated_by := operator_id, reason := reason,
          detections_queued := 0, duration_seconds := none,
          detections_transmitted := none }
      .ok (ev,
        { s with
          events := s.events ++ [ev],
          nodes := s.nodes.map (fun n =>
            if n.node_id == node_id then { n with status := "covert" } else n),
          nextEventId := s.nextEventId + 1 })

/-- The summary dict returned by `deactivate_blackout`. -/
structure DeactivateSummary where
  node_id : String
  blackout_id : Nat
  activated_at : DT
  deactivated_at : DT
  duration_seconds : Int
  detections_queued : Int
deriving DecidableEq, Repr

/-- `BlackoutCoordinator.deactivate_blackout` (`blackout.py` lines 78-142):
`ValueError` if the node is unknown, not `covert`, or has no open event;
otherwise close the open event (the `scalar_one_or_none` read raises on more
than one), normalize a naive stored activation time to UTC, record
`duration_seconds = now - activated_at`, set the node to `resuming`, and
return the summary.  The update touches exactly the rows matched by the
open-event filter, of which the scalar read guarantees there is one. -/
def deactivate_blackout (s : CState) (now : Int) (node_id : String) :
    Except String (DeactivateSummary × CState) := do
  let nodeOpt ← scalarOneOrNone (selectNodeByNodeId s node_id)
  match nodeOpt with
  | none => .error ("Node not found: " ++ node_id)
  | some node =>
    if node.status != "covert" then
      .error ("Node not in blackout: " ++ node_id)
    else do
      let evOpt ← scalarOneOrNone (sortByActivatedDesc (openEventsFor s node.id))
      match evOpt with
      | none => .error ("No active blackout event for node: " ++ node_id)
      | some ev =>
        let dur : Int := now - ev.activated_at.normalizeUTC.val
        .ok ({ node_id := node_id, blackout_id := ev.id,
               activated_at := ev.activated_at, deactivated_at := dtNow now,
               duration_seconds := dur, detections_queued := ev.detections_queued },
          { s with
            events := s.events.map (fun e =>
              if e.node_id == node.id && e.deactivated_at.isNone then
                { e with deactivated_at := some (dtNow now),
                         duration_seconds := some dur }
              else e),
            nodes := s.nodes.map (fun n =>
              if n.node_id == node_id then { n with status := "resuming" } else n) })

/-- `BlackoutCoordinator.update_detection_count` (`blackout.py` lines 144-175):
silently return if the node is unknown or not `covert`; otherwise set
`detections_queued` on the open event, if any. -/
def update_detection_count (s : CState) (node_id : String) (count : Int) :
    Except String CState := do
  let nodeOpt ← scalarOneOrNone (selectNodeByNodeId s node_id)
  match nodeOpt with
  | none => .ok s
  | some node =>
    if node.status != "covert" then
      .ok s
    else do
      let evOpt ← scalarOneOrNone (sortByActivatedDesc (openEventsFor s node.id))
      match evOpt with
      | none => .ok s
      | some _ =>
        .ok { s with
          events := s.events.map (fun e =>
            if e.node_id == node.id && e.deactivated_at.isNone then
              { e with detections_queued := count }
            else e) }

/-- `BlackoutCoordinator.complete_resumption` (`blackout.py` lines 177-212):
silently return if the node is unknown; otherwise record the transmitted
count on the most-recently-deactivated event if one exists (the
`scalar_one_or_none` read raises on more than one closed event), and set the
node's status back to `online` — with no check of the node's current state. -/
def complete_resumption (s : CState) (node_id : String) (transmitted_count : Int) :
    Except String CState := do
  let nodeOpt ← scalarOneOrNone (selectNodeByNodeId s node_id)
  match nodeOpt with
  | none => .ok s
  | some node => do
    let evOpt ← scalarOneOrNone (sortByDeactivatedDesc (closedEventsFor s node.id))
    let events :=
      match evOpt with
      | some _ => s.events.map (fun e =>
          if e.node_id == node.id && e.deactivated_at.isSome then
            { e with detections_transmitted := some transmitted_count }
          else e)
      | none => s.events
    .ok { s with
      events := events,
      nodes := s.nodes.map (fun n =>
        if n.node_id == node_id then { n with status := "online" } else n) }

/-- One entry of the list returned by `recover_stuck_resuming_nodes`. -/
structure RecoveredInfo where
  node_id : String
  blackout_id : Nat
  deactivated_at : Option DT
  stuck_duration_minutes : Int
deriving DecidableEq, Repr

/-- Does this event qualify a node for stuck recovery: deactivated, and the
deactivation instant lies before the threshold. -/
def stuckQual (threshold : Int) (e : BlackoutEvent) : Bool :=
  match e.deactivated_at with
  | some d => decide (d.val < threshold)
  | none => false

/-- Does this event's stored deactivation time carry timezone info?  The
Python subtraction `now - event.deactivated_at` at `blackout.py` line 303 is
only defined when it does. -/
def deactAware (e : BlackoutEvent) : Bool :=
  match e.deactivated_at with
  | some d => d.aware
  | none => true

/-- `BlackoutCoordinator.recover_stuck_resuming_nodes` (`blackout.py` lines
265-309): join nodes in `resuming` to their deactivated events older than the
threshold (`now - timeout_minutes * 60`; the SQL `WHERE` compares the stored
instants), then iterate the joined pairs, forcing each joined node back to
`online` and appending one audit record per pair.  The record's stuck
duration subtracts the stored `deactivated_at` from the aware `now` with no
normalization — unlike `deactivate_blackout`, which normalizes — so if any
joined pair's stored deactivation time reads back timezone-naive (the
repository documents naive read-backs, `queue.py` line 145), the loop raises
`TypeError` before `commit` and the store is unchanged.  When every joined
deactivation time is aware the loop completes and commits; an empty result
is then an ordinary return value. -/
def recover_stuck_resuming_nodes (s : CState) (now : Int) (timeout_minutes : Int) :
    Except String (List RecoveredInfo × CState) :=
  let threshold : Int := now - timeout_minutes * 60
  let pairs : List (Node × BlackoutEvent) :=
    (s.nodes.filter (fun n => n.status == "resuming")).flatMap (fun n =>
      (s.events.filter (fun e => e.node_id == n.id && stuckQual threshold e)).map
        (fun e => (n, e)))
  if pairs.any (fun p => !deactAware p.2) then
    .error "TypeError: cannot subtract offset-naive and offset-aware datetimes"
  else
    .ok (pairs.map (fun p =>
      { node_id := p.1.node_id, blackout_id := p.2.id,
        deactivated_at := p.2.deactivated_at,
        stuck_duration_minutes := (now - deactKey p.2) / 60 }),
      { s with nodes := s.nodes.map (fun n =>
          if n.status == "resuming" &&
              s.events.any (fun e => e.node_id == n.id && stuckQual threshold e) then
            { n with status := "online" }
          else n) })

/-- `QueueManager.max_retries` (`queue.py` line 17). -/
def max_retries : Nat := 5

/-- `QueueManager.base_retry_delay` in seconds (`queue.py` line 18). -/
def base_retry_delay : Nat := 1

/-- `QueueManager.enqueue` (`queue.py` lines 32-57): insert a `pending` item
with retry counter 0 and `next_attempt_at = now + base_retry_delay`. -/
def enqueue (s : CState) (now : Int) (node_id : Nat) (payload : String) :
    Nat × CState :=
  let item : QueueItem :=
    { id := s.nextItemId, node_id := node_id, payload := payload,
      status := "pending", retry_count := 0, created_at := dtNow now,
      processed_at := none,
      next_attempt_at := some (dtNow (now + (base_retry_delay : Int))) }
  (item.id, { s with items := s.items ++ [item], nextItemId := s.nextItemId + 1 })

/-- The dict shape returned by `get_pending_items`. -/
structure PendingDict where
  id : Nat
  payload : String
  retry_count : Nat
  created_at : DT
  next_attempt_at : Option DT
deriving DecidableEq, Repr

/-- `QueueManager.get_pending_items` (`queue.py` lines 59-93): the node's
`pending` items ordered by `created_at` (the `for_update` row-locking flag
has no observable effect in this single-actor model). -/
def get_pending_items (s : CState) (node_id : Nat) : List PendingDict :=
  (sortByKey (fun a b => decide (a.created_at.val ≤ b.created_at.val))
      (s.items.filter (fun it => it.node_id == node_id && it.status == "pending"))).map
    (fun it =>
      { id := it.id, payload := it.payload, retry_count := it.retry_count,
        created_at := it.created_at, next_attempt_at := it.next_attempt_at })

/-- `QueueManager.mark_completed` (`queue.py` lines 95-105): an unconditional
`UPDATE queue_items SET status='completed', processed_at=now WHERE id=:id` —
there is no guard on the current status. -/
def mark_completed (s : CState) (item_id : Nat) (now : Int) : CState :=
  { s with items := s.items.map (fun it =>
      if it.id == item_id then
        { it with status := "completed", processed_at := some (dtNow now) }
      else it) }

/-- `QueueManager.mark_failed` (`queue.py` lines 106-122): load the item with
`scalar_one` (raising for zero or several rows), increment the retry counter,
set status `failed` once the counter reaches `max_retries`, and otherwise
keep it `pending` with `next_attempt_at = now + base_retry_delay * 2 ^
retry_count` computed from the incremented counter. -/
def mark_failed (s : CState) (item_id : Nat) (now : Int) : Except String CState := do
  let item ← scalarOne (s.items.filter (fun it => it.id == item_id))
  let rc := item.retry_count + 1
  let st := if rc ≥ max_retries then "failed" else "pending"
  let na : Option DT :=
    if st == "pending" then
      some (dtNow (now + (base_retry_delay * 2 ^ rc : Nat)))
    else
      none
  .ok { s with items := s.items.map (fun it =>
      if it.id == item_id then
        { it with retry_count := rc, status := st, next_attempt_at := na }
      else it) }

/-- `QueueManager.process_queue` (`queue.py` lines 132-156): snapshot the
pending items, then for each one whose `next_attempt_at` is unset or has
elapsed (after normalizing a naive stored value to UTC), mark it completed —
the transmission step is a placeholder that always succeeds, so the
`except` branch calling `mark_failed` is never taken. -/
def process_queue (s : CState) (node_id : Nat) (now : Int) : CState :=
  (get_pending_items s node_id).foldl (fun st d =>
    match d.next_attempt_at with
    | some na => if now < na.normalizeUTC.val then st else mark_completed st d.id now
    | none => mark_completed st d.id now) s

/-- The operations that mutate the coordinator's store, as invoked through
the API surface in `main.py`. -/
inductive COp
  | register (nid : String)
  | activate (nid : String) (operator_id reason : Option String)
  | deactivate (nid : String)
  | updateCount (nid : String) (count : Int)
  | complete (nid : String) (count : Int)
  | recoverStuck (timeout_minutes : Int)

/-- Run one operation: an operation that raises does so before `commit`, so
the store is unchanged on error. -/
def applyOp (s : CState) (now : Int) : COp → CState
  | .register nid =>
    match register_node s now nid with
    | .ok r => r.2
    | .error _ => s
  | .activate nid op r =>
    match activate_blackout s now nid op r with
    | .ok r => r.2
    | .error _ => s
  | .deactivate nid =>
    match deactivate_blackout s now nid with
    | .ok r => r.2
    | .error _ => s
  | .updateCount nid c =>
    match update_detection_count s nid c with
    | .ok s' => s'
    | .error _ => s
  | .complete nid c =>
    match complete_resumption s nid c with
    | .ok s' => s'
    | .error _ => s
  | .recoverStuck t =>
    match recover_stuck_resuming_nodes s now t with
    | .ok r => r.2
    | .error _ => s

/-- The empty store. -/
def initState : CState :=
  { nodes := [], events := [], items := [], nextNodeId := 1, nextEventId := 1,
    nextItemId := 1 }

/-- States reachable from the empty store by coordinator operations. -/
inductive Reachable : CState → Prop
  | init : Reachable initState
  | step (s : CState) (now : Int) (op : COp) :
      Reachable s → Reachable (applyOp s now op)

/-- The restriction under which the at-most-one-open-episode invariant is
inductive: `complete` is only invoked on a node that is not currently
`covert` (the protocol calls it at the end of `resuming`); every other
operation is unrestricted.  `complete_resumption` itself never checks this. -/
def OpGuard (s : CState) : COp → Prop
  | .complete nid _ => ∀ n ∈ s.nodes, n.node_id = nid → n.status ≠ "covert"
  | _ => True

/-- States reachable when callers respect `OpGuard`. -/
inductive GuardedReachable : CState → Prop
  | init : GuardedReachable initState
  | step (s : CState) (now : Int) (op : COp) :
      GuardedReachable s → OpGuard s op → GuardedReachable (applyOp s now op)

/-- The inductive invariant behind C1: primary keys of node rows are distinct
and below the autoincrement counter, events reference allocated node rows,
every node row has at most one open episode, and a node row that is not
`covert` has none. -/
def Inv (s : CState) : Prop :=
  (∀ n ∈ s.nodes, n.id < s.nextNodeId) ∧
  (s.nodes.map (fun n => n.id)).Nodup ∧
  (∀ e ∈ s.events, e.node_id < s.nextNodeId) ∧
  (∀ rid : Nat, (openEventsFor s rid).length ≤ 1) ∧
  (∀ n ∈ s.nodes, n.status ≠ "covert" → openEventsFor s n.id = [])

end Backend

namespace Edge

/-- Row of the embedded table `queued_detections`
(`src/edge-inference/src/blackout.py`, `_init_db`): autoincrement id,
queue timestamp, serialized detection, transmitted flag. -/
structure EdgeRow where
  id : Nat
  queued_at : Int
  detection_data : String
  transmitted : Bool
deriving DecidableEq, Repr

/-- The `BlackoutController`'s state: the embedded store (rows in insertion
order plus the autoincrement counter) and the in-memory flags. -/
structure EdgeState where
  rows : List EdgeRow
  nextRowId : Nat
  is_active : Bool
  blackout_id : Option Nat
  activated_at : Option Int
deriving DecidableEq, Repr

/-- `BlackoutController.activate` (`blackout.py` lines 52-67). -/
def activate (e : EdgeState) (blackout_id : Option Nat) (now : Int) : EdgeState :=
  { e with is_active := true, blackout_id := blackout_id, activated_at := some now }

/-- `BlackoutController.queue_detection` (`blackout.py` lines 95-117):
insert an untransmitted row. -/
def queue_detection (e : EdgeState) (detection : String) (now : Int) : EdgeState :=
  { e with
    rows := e.rows ++ [{ id := e.nextRowId, queued_at := now,
                         detection_data := detection, transmitted := false }],
    nextRowId := e.nextRowId + 1 }

/-- The dict shape returned by `get_queued_detections`. -/
structure QueuedDetection where
  id : Nat
  queued_at : Int
  detection : String
deriving DecidableEq, Repr

/-- `BlackoutController.get_queued_detections` (`blackout.py` lines 119-141):
`SELECT id, queued_at, detection_data FROM queued_detections WHERE
transmitted = 0 ORDER BY id`. -/
def get_queued_detections (e : EdgeState) : List QueuedDetection :=
  (sortByKey (fun a b => decide (a.id ≤ b.id))
      (e.rows.filter (fun r => !r.transmitted))).map
    (fun r => { id := r.id, queued_at := r.queued_at, detection := r.detection_data })

/-- `BlackoutController.get_queued_count` (`blackout.py` lines 143-158). -/
def get_queued_count (e : EdgeState) : Nat :=
  (e.rows.filter (fun r => !r.transmitted)).length

/-- `BlackoutController.mark_transmitted` (`blackout.py` lines 160-175):
`UPDATE queued_detections SET transmitted = 1 WHERE id = ?` for each id. -/
def mark_transmitted (e : EdgeState) (detection_ids : List Nat) : EdgeState :=
  { e with rows := e.rows.map (fun r =>
      if detection_ids.contains r.id then { r with transmitted := true } else r) }

/-- `BlackoutController.deactivate` (`blackout.py` lines 69-93): if not
active, return the empty list; otherwise fetch all untransmitted rows, mark
them transmitted — within `deactivate` itself, before any network
transmission happens — clear the in-memory flags, and return the fetched
items. -/
def deactivate (e : EdgeState) : List QueuedDetection × EdgeState :=
  if !e.is_active then ([], e)
  else
    let detections := get_queued_detections e
    let e1 :=
      if detections.isEmpty then e
      else mark_transmitted e (detections.map (fun d => d.id))
    (detections,
     { e1 with is_active := false, blackout_id := none, activated_at := none })

/-- `BlackoutController.clear_transmitted` (`blackout.py` lines 177-183):
`DELETE FROM queued_detections WHERE transmitted = 1`. -/
def clear_transmitted (e : EdgeState) : EdgeState :=
  { e with rows := e.rows.filter (fun r => !r.transmitted) }

end Edge

namespace Burst

/-- Outcome of one attempted POST of one detection, as distinguished by the
`try`/`except` arms of `transmit_queued_detections`: an HTTP response with a
status code, an `asyncio.TimeoutError`, an `aiohttp.ClientError`, or an
unexpected exception. -/
inductive TxOutcome
  | status (code : Nat)
  | timeout
  | netError
  | unexpected

/-- The per-item retry loop `for attempt in range(max_retries)`
(`burst_transmission.py` lines 78-119), with `o attempt` the outcome of the
POST on that attempt: a 200/201 response succeeds and stops; any other
response, a timeout, or a network error is retried until attempts run out;
an unexpected exception stops immediately without success. -/
def itemSucceeds (o : Nat → TxOutcome) : Nat → Nat → Bool
  | _, 0 => false
  | attempt, fuel + 1 =>
    match o attempt with
    | .status code =>
      if code == 200 || code == 201 then true
      else itemSucceeds o (attempt + 1) fuel
    | .timeout => itemSucceeds o (attempt + 1) fuel
    | .netError => itemSucceeds o (attempt + 1) fuel
    | .unexpected => false

/-- The batching loop `for i in range(0, total, batch_size)` slices the input
into consecutive chunks of `batch_size` (`burst_transmission.py` line 66). -/
def chunks {α : Type} (batch_size : Nat) (l : List α) : List (List α) :=
  if l.isEmpty || batch_size == 0 then []
  else l.take batch_size :: chunks batch_size (l.drop batch_size)
termination_by l.length
decreasing_by
  rename_i h
  rw [List.length_drop]
  simp only [Bool.or_eq_true, List.isEmpty_iff, beq_iff_eq, not_or] at h
  exact Nat.sub_lt (List.length_pos.mpr h.1) (Nat.pos_of_ne_zero h.2)

/-- Process the items of one batch in order, appending each item's id to the
transmitted or the failed accumulator (`burst_transmission.py` lines 72-123). -/
def processBatch (o : Nat → Nat → TxOutcome) (mr : Nat) :
    List Edge.QueuedDetection → List Nat × List Nat → List Nat × List Nat
  | [], acc => acc
  | d :: rest, acc =>
    if itemSucceeds (o d.id) 0 mr then
      processBatch o mr rest (acc.1 ++ [d.id], acc.2)
    else
      processBatch o mr rest (acc.1, acc.2 ++ [d.id])

/-- The summary dict returned by `transmit_queued_detections`.  The
empty-input early return (lines 46-53) omits the `transmitted_ids` key; it is
rendered here as the empty list. -/
structure TxResult where
  status : String
  total : Nat
  transmitted : Nat
  transmitted_ids : List Nat
  failed : Nat
  failed_ids : List Nat
deriving DecidableEq, Repr

/-- `transmit_queued_detections` (`burst_transmission.py` lines 19-148), with
the network abstracted as an oracle `o` giving the outcome of each
(detection id, attempt) pair.  The function never raises: every exception of
an attempt is caught inside the per-item loop, and partial failure is
reported through the `partial` status and the failed-id list. -/
def transmit_queued_detections (queued_detections : List Edge.QueuedDetection)
    (o : Nat → Nat → TxOutcome) (batch_size : Nat) (max_retries : Nat) : TxResult :=
  if queued_detections = [] then
    { status := "success", total := 0, transmitted := 0, transmitted_ids := [],
      failed := 0, failed_ids := [] }
  else
    let acc := (chunks batch_size queued_detections).foldl
      (fun acc batch => processBatch o max_retries batch acc) ([], [])
    { status := if acc.2.length == 0 then "success" else "partial",
      total := queued_detections.length,
      transmitted := acc.1.length, transmitted_ids := acc.1,
      failed := acc.2.length, failed_ids := acc.2 }

end Burst

/-! ### Shared helper lemmas -/

theorem scalarOneOrNone_nil {α : Type} : scalarOneOrNone ([] : List α) = .ok none := rfl

theorem scalarOneOrNone_singleton {α : Type} (a : α) :
    scalarOneOrNone [a] = .ok (some a) := rfl

@[simp] theorem mem_insertByKey {α : Type} (le : α → α → Bool) (a x : α) :
    ∀ l : List α, x ∈ insertByKey le a l ↔ x = a ∨ x ∈ l
  | [] => by simp [insertByKey]
  | b :: l => by
    by_cases h : le a b = true
    · simp [insertByKey, h]
    · simp only [insertByKey, if_neg h, List.mem_cons, mem_insertByKey le a x l]
      tauto

@[simp] theorem length_insertByKey {α : Type} (le : α → α → Bool) (a : α) :
    ∀ l : List α, (insertByKey le a l).length = l.length + 1
  | [] => rfl
  | b :: l => by
    by_cases h : le a b = true
    · simp [insertByKey, h]
    · simp only [insertByKey, if_neg h, List.length_cons,
        length_insertByKey le a l]

@[simp] theorem mem_sortByKey {α : Type} (le : α → α → Bool) (x : α) :
    ∀ l : List α, x ∈ sortByKey le l ↔ x ∈ l
  | [] => Iff.rfl
  | a :: l => by
    simp [sortByKey, mem_insertByKey, mem_sortByKey le x l]

@[simp] theorem length_sortByKey {α : Type} (le : α → α → Bool) :
    ∀ l : List α, (sortByKey le l).length = l.length
  | [] => rfl
  | a :: l => by simp [sortByKey, length_sortByKey le l]

theorem sortByKey_of_sorted {α : Type} (le : α → α → Bool) (l : List α)
    (h : l.Pairwise (fun x y => le x y = true)) : sortByKey le l = l := by
  induction l with
  | nil => rfl
  | cons a l ih =>
    rw [List.pairwise_cons] at h
    show insertByKey le a (sortByKey le l) = a :: l
    rw [ih h.2]
    cases l with
    | nil => rfl
    | cons b l2 =>
      show (if le a b then a :: b :: l2 else b :: insertByKey le a l2) = a :: b :: l2
      rw [if_pos (h.1 b (List.mem_cons_self b l2))]

/-- A claim's theorems below refer to the node-lookup as the source does:
`selectNodeByNodeId s nid = []` exactly when no node row carries `nid`. -/
theorem selectNodeByNodeId_eq_nil {s : Backend.CState} {nid : String}
    (h : ∀ n ∈ s.nodes, n.node_id ≠ nid) :
    Backend.selectNodeByNodeId s nid = [] := by
  apply List.filter_eq_nil_iff.mpr
  intro n hn
  simp [h n hn]

/-! ### C10 — complete on an unknown node is a silent no-op -/

/-- C10: `complete_resumption` called with a node id matching no node row
returns without raising and leaves the store (nodes, episodes, queue items)
unchanged, whereas `activate_blackout` and `deactivate_blackout` raise
`Node not found` for the same unknown id. -/
theorem c10_complete_unknown_node_silent (s : Backend.CState) (nid : String)
    (c : Int) (h : ∀ n ∈ s.nodes, n.node_id ≠ nid) :
    Backend.complete_resumption s nid c = .ok s ∧
    (∀ now op r, Backend.activate_blackout s now nid op r =
      .error ("Node not found: " ++ nid)) ∧
    (∀ now, Backend.deactivate_blackout s now nid =
      .error ("Node not found: " ++ nid)) := by
  have hsel := selectNodeByNodeId_eq_nil h
  refine ⟨?_, fun now op r => ?_, fun now => ?_⟩
  · simp [Backend.complete_resumption, hsel, scalarOneOrNone_nil, Bind.bind, Except.bind]
  · simp [Backend.activate_blackout, hsel, scalarOneOrNone_nil, Bind.bind, Except.bind]
  · simp [Backend.deactivate_blackout, hsel, scalarOneOrNone_nil, Bind.bind, Except.bind]

/-- Witness for C10 at a concrete one-node store and an unknown id. -/
theorem c10_witness :
    Backend.complete_resumption
      { nodes := [{ id := 1, node_id := "sentry-01", status := "online",
                    last_heartbeat := none }],
        events := [], items := [], nextNodeId := 2, nextEventId := 1,
        nextItemId := 1 } "ghost" 3 =
      .ok { nodes := [{ id := 1, node_id := "sentry-01", status := "online",
                        last_heartbeat := none }],
            events := [], items := [], nextNodeId := 2, nextEventId := 1,
            nextItemId := 1 } :=
  (c10_complete_unknown_node_silent _ "ghost" 3 (by decide)).1

/-! ### C3 — markFailed increments, backs off exponentially, and fails
terminally at the configured maximum -/

/-- C3: on the queue item with id `i` (the row is unique, as `scalar_one`
demands), `mark_failed` increments the retry counter from `r` to `r + 1`;
once `r + 1` has reached the configured maximum `max_retries = 5` the status
becomes `failed` and the eligible-retry time is cleared, and otherwise the
status stays `pending` with the eligible-retry time set to
`now + base_retry_delay * 2 ^ (r + 1)`.  Moreover everything
`get_pending_items` returns originates from an item whose status is
`pending`, so an item with status `failed` is never returned. -/
theorem c3_mark_failed_backoff (s : Backend.CState) (i : Nat) (now : Int)
    (it : Backend.QueueItem)
    (hone : s.items.filter (fun x => x.id == i) = [it])
    (hpend : it.status = "pending") :
    (∃ s', Backend.mark_failed s i now = .ok s' ∧
      ∀ u ∈ s'.items, u.id = i →
        u.retry_count = it.retry_count + 1 ∧
        (it.retry_count + 1 ≥ Backend.max_retries →
          u.status = "failed" ∧ u.next_attempt_at = none) ∧
        (it.retry_count + 1 < Backend.max_retries →
          u.status = "pending" ∧
          u.next_attempt_at =
            some (dtNow (now +
              ((Backend.base_retry_delay * 2 ^ (it.retry_count + 1) : Nat) : Int))))) ∧
    (∀ nid d, d ∈ Backend.get_pending_items s nid →
      ∃ p ∈ s.items, p.status = "pending" ∧ d.id = p.id) := by
  constructor
  · have hmem : ∀ x ∈ s.items, x.id = i → x = it := by
      intro x hx hxi
      have : x ∈ s.items.filter (fun x => x.id == i) := by
        simp [List.mem_filter, hx, hxi]
      rw [hone] at this
      simpa using this
    by_cases hge : it.retry_count + 1 ≥ Backend.max_retries
    · refine ⟨{ s with items := s.items.map (fun x =>
          if x.id == i then
            { x with retry_count := it.retry_count + 1, status := "failed",
                     next_attempt_at := none }
          else x) }, ?_, ?_⟩
      · simp [Backend.mark_failed, Sentinel.scalarOne, hone, Bind.bind,
          Except.bind, hge]
      · intro u hu hui
        simp only [List.mem_map] at hu
        obtain ⟨x, hx, hxu⟩ := hu
        by_cases hid : x.id = i
        · have hxit : x = it := hmem x hx hid
          subst hxit
          rw [if_pos (by simpa using hid)] at hxu
          subst hxu
          exact ⟨rfl, fun _ => ⟨rfl, rfl⟩, fun hlt => absurd hge (by omega)⟩
        · rw [if_neg (by simpa using hid)] at hxu
          subst hxu
          exact absurd hui hid
    · refine ⟨{ s with items := s.items.map (fun x =>
          if x.id == i then
            { x with retry_count := it.retry_count + 1, status := "pending",
                     next_attempt_at := some (dtNow (now +
                       ((Backend.base_retry_delay * 2 ^ (it.retry_count + 1) : Nat) : Int))) }
          else x) }, ?_, ?_⟩
      · simp [Backend.mark_failed, Sentinel.scalarOne, hone, Bind.bind,
          Except.bind, hge]
      · intro u hu hui
        simp only [List.mem_map] at hu
        obtain ⟨x, hx, hxu⟩ := hu
        by_cases hid : x.id = i
        · have hxit : x = it := hmem x hx hid
          subst hxit
          rw [if_pos (by simpa using hid)] at hxu
          subst hxu
          exact ⟨rfl, fun hge2 => absurd hge2 hge, fun _ => ⟨rfl, rfl⟩⟩
        · rw [if_neg (by simpa using hid)] at hxu
          subst hxu
          exact absurd hui hid
  · intro nid d hd
    simp only [Backend.get_pending_items, List.mem_map, mem_sortByKey,
      List.mem_filter, Bool.and_eq_true, beq_iff_eq] at hd
    obtain ⟨p, ⟨hp, _, hps⟩, hpd⟩ := hd
    exact ⟨p, hp, hps, by rw [← hpd]⟩

/-- Witness for C3: a single pending item with retry counter 0; the backoff
lands at `now + 2` seconds and the status stays `pending`. -/
theorem c3_witness :
    ∃ s', Backend.mark_failed
      { nodes := [], events := [],
        items := [{ id := 7, node_id := 1, payload := "p", status := "pending",
                    retry_count := 0, created_at := { val := 0, aware := true },
                    processed_at := none, next_attempt_at := none }],
        nextNodeId := 1, nextEventId := 1, nextItemId := 8 } 7 100 = .ok s' ∧
      ∀ u ∈ s'.items, u.id = 7 →
        u.retry_count = 1 ∧
        (1 ≥ Backend.max_retries → u.status = "failed" ∧ u.next_attempt_at = none) ∧
        (1 < Backend.max_retries → u.status = "pending" ∧
          u.next_attempt_at =
            some (dtNow (100 + ((Backend.base_retry_delay * 2 ^ 1 : Nat) : Int)))) :=
  (c3_mark_failed_backoff _ 7 100
    { id := 7, node_id := 1, payload := "p", status := "pending",
      retry_count := 0, created_at := { val := 0, aware := true },
      processed_at := none, next_attempt_at := none }
    (by decide) rfl).1

/-! ### C6 — deactivate semantics -/

/-- C6: `deactivate_blackout` fails with `Node not found` when the id matches
no node, fails with `Node not in blackout` when the node's status is not
`covert`, and otherwise — the node being covert with exactly one open
episode — closes that episode at `now`, records the duration as `now` minus
the activation instant after normalizing a timezone-naive stored activation
time to UTC, moves the node to `resuming`, and returns the summary carrying
the episode id, activation and deactivation times, duration, and queued
count. -/
theorem c6_deactivate_semantics (s : Backend.CState) (now : Int) (nid : String) :
    (Backend.selectNodeByNodeId s nid = [] →
      Backend.deactivate_blackout s now nid = .error ("Node not found: " ++ nid)) ∧
    (∀ n, Backend.selectNodeByNodeId s nid = [n] → n.status ≠ "covert" →
      Backend.deactivate_blackout s now nid =
        .error ("Node not in blackout: " ++ nid)) ∧
    (∀ n ev, Backend.selectNodeByNodeId s nid = [n] → n.status = "covert" →
      Backend.openEventsFor s n.id = [ev] →
      ∃ sm s', Backend.deactivate_blackout s now nid = .ok (sm, s') ∧
        sm.node_id = nid ∧
        sm.blackout_id = ev.id ∧
        sm.activated_at = ev.activated_at ∧
        sm.deactivated_at = dtNow now ∧
        sm.duration_seconds = now - ev.activated_at.normalizeUTC.val ∧
        sm.detections_queued = ev.detections_queued ∧
        (∀ m ∈ s'.nodes, m.node_id = nid → m.status = "resuming") ∧
        (∀ m ∈ s.nodes, m.node_id ≠ nid → m ∈ s'.nodes) ∧
        { ev with deactivated_at := some (dtNow now),
                  duration_seconds := some (now - ev.activated_at.normalizeUTC.val) }
          ∈ s'.events ∧
        Backend.openEventsFor s' n.id = []) := by
  refine ⟨fun hnil => ?_, fun n hn hst => ?_, fun n ev hn hst hev => ?_⟩
  · simp [Backend.deactivate_blackout, hnil, scalarOneOrNone_nil, Bind.bind,
      Except.bind]
  · simp [Backend.deactivate_blackout, hn, Sentinel.scalarOneOrNone, Bind.bind,
      Except.bind, hst]
  · have hopen : Sentinel.scalarOneOrNone
        (Backend.sortByActivatedDesc (Backend.openEventsFor s n.id)) =
        .ok (some ev) := by
      rw [hev]
      rfl
    have hrun : Backend.deactivate_blackout s now nid = .ok
        ({ node_id := nid, blackout_id := ev.id, activated_at := ev.activated_at,
           deactivated_at := dtNow now,
           duration_seconds := now - ev.activated_at.normalizeUTC.val,
           detections_queued := ev.detections_queued },
         { s with
           events := s.events.map (fun e =>
             if e.node_id == n.id && e.deactivated_at.isNone then
               { e with deactivated_at := some (dtNow now),
                        duration_seconds :=
                          some (now - ev.activated_at.normalizeUTC.val) }
             else e),
           nodes := s.nodes.map (fun m =>
             if m.node_id == nid then { m with status := "resuming" } else m) }) := by
      simp [Backend.deactivate_blackout, hn, scalarOneOrNone_singleton, Bind.bind,
        Except.bind, hst, hopen]
    refine ⟨_, _, hrun, rfl, rfl, rfl, rfl, rfl, rfl, ?_, ?_, ?_, ?_⟩
    · intro m hm hmn
      simp only [List.mem_map] at hm
      obtain ⟨x, hx, hxm⟩ := hm
      by_cases hxe : x.node_id = nid
      · rw [if_pos (by simpa using hxe)] at hxm
        rw [← hxm]
      · rw [if_neg (by simpa using hxe)] at hxm
        subst hxm
        exact absurd hmn hxe
    · intro m hm hmn
      apply List.mem_map.mpr
      refine ⟨m, hm, ?_⟩
      rw [if_neg (by simpa using hmn)]
    · have hevmem : ev ∈ s.events ∧
          (ev.node_id == n.id && ev.deactivated_at.isNone) = true := by
        have : ev ∈ Backend.openEventsFor s n.id := by rw [hev]; simp
        simpa [Backend.openEventsFor, List.mem_filter] using this
      apply List.mem_map.mpr
      refine ⟨ev, hevmem.1, ?_⟩
      rw [if_pos hevmem.2]
    · apply List.filter_eq_nil_iff.mpr
      intro x hx
      simp only [List.mem_map] at hx
      obtain ⟨y, _, hyx⟩ := hx
      by_cases hyp : (y.node_id == n.id && y.deactivated_at.isNone) = true
      · rw [if_pos hyp] at hyx
        subst hyx
        simp
      · rw [if_neg hyp] at hyx
        subst hyx
        exact hyp

/-- Witness for C6, third branch: a covert node whose single open episode
stores a timezone-naive activation instant 10; deactivated at instant 50 the
episode closes with duration 40. -/
theorem c6_witness :
    ∃ sm s', Backend.deactivate_blackout
      { nodes := [{ id := 1, node_id := "n1", status := "covert",
                    last_heartbeat := none }],
        events := [{ id := 4, node_id := 1,
                     activated_at := { val := 10, aware := false },
                     deactivated_at := none, activated_by := some "op",
                     reason := none, detections_queued := 3,
                     duration_seconds := none, detections_transmitted := none }],
        items := [], nextNodeId := 2, nextEventId := 5, nextItemId := 1 }
      50 "n1" = .ok (sm, s') ∧
      sm.node_id = "n1" ∧ sm.blackout_id = 4 ∧
      sm.activated_at = { val := 10, aware := false } ∧
      sm.deactivated_at = dtNow 50 ∧
      sm.duration_seconds = 50 -
        (DT.normalizeUTC { val := 10, aware := false }).val ∧
      sm.detections_queued = 3 ∧
      (∀ m ∈ s'.nodes, m.node_id = "n1" → m.status = "resuming") ∧
      (∀ m ∈ ([{ id := 1, node_id := "n1", status := "covert",
                 last_heartbeat := none }] : List Backend.Node),
        m.node_id ≠ "n1" → m ∈ s'.nodes) ∧
      { id := 4, node_id := 1, activated_at := { val := 10, aware := false },
        deactivated_at := some (dtNow 50), activated_by := some "op",
        reason := none, detections_queued := 3,
        duration_seconds := some (50 -
          (DT.normalizeUTC { val := 10, aware := false }).val),
        detections_transmitted := none } ∈ s'.events ∧
      Backend.openEventsFor s' 1 = [] := by
  have h := (c6_deactivate_semantics
    { nodes := [{ id := 1, node_id := "n1", status := "covert",
                  last_heartbeat := none }],
      events := [{ id := 4, node_id := 1,
                   activated_at := { val := 10, aware := false },
                   deactivated_at := none, activated_by := some "op",
                   reason := none, detections_queued := 3,
                   duration_seconds := none, detections_transmitted := none }],
      items := [], nextNodeId := 2, nextEventId := 5, nextItemId := 1 }
    50 "n1").2.2
    { id := 1, node_id := "n1", status := "covert", last_heartbeat := none }
    { id := 4, node_id := 1, activated_at := { val := 10, aware := false },
      deactivated_at := none, activated_by := some "op", reason := none,
      detections_queued := 3, duration_seconds := none,
      detections_transmitted := none }
    (by decide) rfl (by decide)
  exact h

/-! ### C8 — what does an immediate second recovery run do? -/

theorem recover_ok_inv (s : Backend.CState) (now t : Int)
    (res : List Backend.RecoveredInfo × Backend.CState)
    (hok : Backend.recover_stuck_resuming_nodes s now t = .ok res) :
    res.1 = ((s.nodes.filter (fun n => n.status == "resuming")).flatMap (fun n =>
      (s.events.filter (fun e => e.node_id == n.id &&
        Backend.stuckQual (now - t * 60) e)).map (fun e => (n, e)))).map (fun p =>
      { node_id := p.1.node_id, blackout_id := p.2.id,
        deactivated_at := p.2.deactivated_at,
        stuck_duration_minutes := (now - Backend.deactKey p.2) / 60 }) ∧
    res.2 = { s with nodes := s.nodes.map (fun n =>
      if n.status == "resuming" && s.events.any (fun e => e.node_id == n.id &&
          Backend.stuckQual (now - t * 60) e) then
        { n with status := "online" }
      else n) } := by
  by_cases hbad : (((s.nodes.filter (fun n => n.status == "resuming")).flatMap
      (fun n => (s.events.filter (fun e => e.node_id == n.id &&
        Backend.stuckQual (now - t * 60) e)).map (fun e => (n, e)))).any
      (fun p => !Backend.deactAware p.2)) = true
  · rw [show Backend.recover_stuck_resuming_nodes s now t = .error
        "TypeError: cannot subtract offset-naive and offset-aware datetimes" from by
      simp [Backend.recover_stuck_resuming_nodes, hbad]] at hok
    exact Except.noConfusion hok
  · rw [show Backend.recover_stuck_resuming_nodes s now t = .ok
        (((s.nodes.filter (fun n => n.status == "resuming")).flatMap (fun n =>
          (s.events.filter (fun e => e.node_id == n.id &&
            Backend.stuckQual (now - t * 60) e)).map (fun e => (n, e)))).map (fun p =>
          { node_id := p.1.node_id, blackout_id := p.2.id,
            deactivated_at := p.2.deactivated_at,
            stuck_duration_minutes := (now - Backend.deactKey p.2) / 60 }),
         { s with nodes := s.nodes.map (fun n =>
            if n.status == "resuming" && s.events.any (fun e => e.node_id == n.id &&
                Backend.stuckQual (now - t * 60) e) then
              { n with status := "online" }
            else n) }) from by
      simp [Backend.recover_stuck_resuming_nodes, hbad]] at hok
    injection hok with h
    rw [← h]
    exact ⟨rfl, rfl⟩

/-- C8 counterexample: the claim promises, from any state, that a double run
is safe and an empty result is a success, not an error — yet from a store
whose one qualifying episode stores a timezone-naive deactivation instant,
`recover_stuck_resuming_nodes` raises `TypeError` (the unnormalized
subtraction at `blackout.py` line 303) before committing anything.  The
first run therefore changes nothing, and the immediate second run — the same
call on the unchanged store — raises again instead of returning the empty
list. -/
theorem c8_counterexample_naive_deactivation_raises :
    Backend.recover_stuck_resuming_nodes
      { nodes := [{ id := 1, node_id := "n1", status := "resuming",
                    last_heartbeat := none }],
        events := [{ id := 1, node_id := 1,
                     activated_at := { val := -100, aware := true },
                     deactivated_at := some { val := 0, aware := false },
                     activated_by := none, reason := none, detections_queued := 0,
                     duration_seconds := some 100, detections_transmitted := none }],
        items := [], nextNodeId := 2, nextEventId := 2, nextItemId := 1 }
      100 1 =
      .error "TypeError: cannot subtract offset-naive and offset-aware datetimes" ∧
    ∀ res, Backend.recover_stuck_resuming_nodes
      { nodes := [{ id := 1, node_id := "n1", status := "resuming",
                    last_heartbeat := none }],
        events := [{ id := 1, node_id := 1,
                     activated_at := { val := -100, aware := true },
                     deactivated_at := some { val := 0, aware := false },
                     activated_by := none, reason := none, detections_queued := 0,
                     duration_seconds := some 100, detections_transmitted := none }],
        items := [], nextNodeId := 2, nextEventId := 2, nextItemId := 1 }
      100 1 ≠ .ok res := by
  refine ⟨rfl, fun res h => ?_⟩
  exact Except.noConfusion h

/-- C8 amended: whenever the first run completes without raising — which is
exactly the case when every joined episode stores a timezone-aware
deactivation time — running the scan again in immediate succession (same
clock reading, same timeout) is safe: the second run returns the empty list,
an ordinary successful result, not an error, and leaves the store exactly as
the first run left it, because the first run already moved every node with a
qualifying episode out of `resuming`.  A first run that hits a naive stored
deactivation time instead raises `TypeError` and changes nothing (see the
counterexample). -/
theorem c8_amended_second_run_empty (s : Backend.CState) (now t : Int)
    (res : List Backend.RecoveredInfo × Backend.CState)
    (hok : Backend.recover_stuck_resuming_nodes s now t = .ok res) :
    Backend.recover_stuck_resuming_nodes res.2 now t = .ok ([], res.2) := by
  obtain ⟨-, hs1⟩ := recover_ok_inv s now t res hok
  have hevents : res.2.events = s.events := by rw [hs1]
  have hnodes : res.2.nodes = s.nodes.map (fun n =>
      if n.status == "resuming" &&
          s.events.any (fun e => e.node_id == n.id &&
            Backend.stuckQual (now - t * 60) e) then
        { n with status := "online" }
      else n) := by rw [hs1]
  have hkey : ∀ n ∈ res.2.nodes, n.status = "resuming" →
      s.events.any (fun e => e.node_id == n.id &&
        Backend.stuckQual (now - t * 60) e) = false := by
    intro n hn hres
    rw [hnodes] at hn
    simp only [List.mem_map] at hn
    obtain ⟨m, hm, hmn⟩ := hn
    by_cases hcond : (m.status == "resuming" &&
        s.events.any (fun e => e.node_id == m.id &&
          Backend.stuckQual (now - t * 60) e)) = true
    · rw [if_pos hcond] at hmn
      rw [← hmn] at hres
      exact absurd hres (by simp)
    · rw [if_neg hcond] at hmn
      subst hmn
      simp only [Bool.and_eq_true, beq_iff_eq, not_and] at hcond
      exact Bool.eq_false_iff.mpr (hcond hres)
  have hpairs : ((res.2.nodes.filter (fun n => n.status == "resuming")).flatMap
      (fun n => (res.2.events.filter (fun e => e.node_id == n.id &&
        Backend.stuckQual (now - t * 60) e)).map (fun e => (n, e)))) = [] := by
    apply List.flatMap_eq_nil_iff.mpr
    intro n hn
    rw [List.mem_filter] at hn
    have hfil : res.2.events.filter
        (fun e => e.node_id == n.id && Backend.stuckQual (now - t * 60) e) = [] := by
      apply List.filter_eq_nil_iff.mpr
      intro e he
      rw [hevents] at he
      intro hcontra
      exact (List.any_eq_false.mp (hkey n hn.1 (by simpa using hn.2)) e he) hcontra
    rw [hfil]
    rfl
  have hmap : res.2.nodes.map (fun n =>
      if n.status == "resuming" &&
          res.2.events.any (fun e => e.node_id == n.id &&
            Backend.stuckQual (now - t * 60) e) then
        { n with status := "online" }
      else n) = res.2.nodes := by
    have hcong : ∀ n ∈ res.2.nodes,
        (if n.status == "resuming" &&
            res.2.events.any (fun e => e.node_id == n.id &&
              Backend.stuckQual (now - t * 60) e) then
          { n with status := "online" }
        else n) = n := by
      intro n hn
      apply if_neg
      simp only [Bool.and_eq_true, beq_iff_eq, not_and]
      intro hres hany
      rw [hevents] at hany
      rw [hkey n hn hres] at hany
      exact absurd hany (by simp)
    calc res.2.nodes.map _ = res.2.nodes.map id := List.map_congr_left hcong
      _ = res.2.nodes := List.map_id res.2.nodes
  have happ : Backend.recover_stuck_resuming_nodes res.2 now t = .ok ([],
      { res.2 with nodes := res.2.nodes.map (fun n =>
        if n.status == "resuming" &&
            res.2.events.any (fun e => e.node_id == n.id &&
              Backend.stuckQual (now - t * 60) e) then
          { n with status := "online" }
        else n) }) := by
    simp only [Backend.recover_stuck_resuming_nodes, hpairs]
    rfl
  rw [happ, hmap]

/-- Witness for C8 amended: a resuming node with one aware old episode; the
first run succeeds and moves it online, and the second run on the resulting
store returns the empty list and the same store. -/
theorem c8_witness :
    Backend.recover_stuck_resuming_nodes
      { nodes := [{ id := 1, node_id := "n1", status := "online",
                    last_heartbeat := none }],
        events := [{ id := 1, node_id := 1,
                     activated_at := { val := -100, aware := true },
                     deactivated_at := some { val := 0, aware := true },
                     activated_by := none, reason := none, detections_queued := 0,
                     duration_seconds := some 100, detections_transmitted := none }],
        items := [], nextNodeId := 2, nextEventId := 2, nextItemId := 1 }
      100 1 =
    .ok ([],
      { nodes := [{ id := 1, node_id := "n1", status := "online",
                    last_heartbeat := none }],
        events := [{ id := 1, node_id := 1,
                     activated_at := { val := -100, aware := true },
                     deactivated_at := some { val := 0, aware := true },
                     activated_by := none, reason := none, detections_queued := 0,
                     duration_seconds := some 100, detections_transmitted := none }],
        items := [], nextNodeId := 2, nextEventId := 2, nextItemId := 1 }) :=
  c8_amended_second_run_empty
    { nodes := [{ id := 1, node_id := "n1", status := "resuming",
                  last_heartbeat := none }],
      events := [{ id := 1, node_id := 1,
                   activated_at := { val := -100, aware := true },
                   deactivated_at := some { val := 0, aware := true },
                   activated_by := none, reason := none, detections_queued := 0,
                   duration_seconds := some 100, detections_transmitted := none }],
      items := [], nextNodeId := 2, nextEventId := 2, nextItemId := 1 }
    100 1
    ([{ node_id := "n1", blackout_id := 1,
        deactivated_at := some { val := 0, aware := true },
        stuck_duration_minutes := 1 }],
     { nodes := [{ id := 1, node_id := "n1", status := "online",
                   last_heartbeat := none }],
       events := [{ id := 1, node_id := 1,
                    activated_at := { val := -100, aware := true },
                    deactivated_at := some { val := 0, aware := true },
                    activated_by := none, reason := none, detections_queued := 0,
                    duration_seconds := some 100, detections_transmitted := none }],
       items := [], nextNodeId := 2, nextEventId := 2, nextItemId := 1 })
    rfl

/-! ### C9 — edge deactivate marks before transmitting and clears state -/

/-- C9: the edge controller's `deactivate` returns the empty list and changes
nothing when the controller is not active; when it is active, it returns
exactly the untransmitted items fetched by `get_queued_detections`, its
post-state has every row marked transmitted (the marking is performed inside
`deactivate` itself, before any network transmission can happen — the network
is only touched later by the reconciliation protocol the caller invokes), and
the local active flag, the stored episode id and the activation time are all
cleared. -/
theorem c9_edge_deactivate_semantics (e : Edge.EdgeState) :
    (e.is_active = false → Edge.deactivate e = ([], e)) ∧
    (e.is_active = true →
      (Edge.deactivate e).1 = Edge.get_queued_detections e ∧
      (Edge.deactivate e).2.is_active = false ∧
      (Edge.deactivate e).2.blackout_id = none ∧
      (Edge.deactivate e).2.activated_at = none ∧
      ∀ r ∈ (Edge.deactivate e).2.rows, r.transmitted = true) := by
  constructor
  · intro hia
    simp [Edge.deactivate, hia]
  · intro hia
    by_cases hemp : (Edge.get_queued_detections e).isEmpty = true
    · have hfil : e.rows.filter (fun r => !r.transmitted) = [] := by
        have hlen : (Edge.get_queued_detections e).length =
            (e.rows.filter (fun r => !r.transmitted)).length := by
          simp [Edge.get_queued_detections]
        rw [List.isEmpty_iff, ← List.length_eq_zero] at hemp
        rw [hemp] at hlen
        exact List.length_eq_zero.mp hlen.symm
      have hall : ∀ r ∈ e.rows, r.transmitted = true := by
        intro r hr
        by_contra hnt
        have : r ∈ e.rows.filter (fun r => !r.transmitted) := by
          simp only [List.mem_filter, Bool.not_eq_true']
          exact ⟨hr, Bool.eq_false_iff.mpr hnt⟩
        rw [hfil] at this
        simp at this
      refine ⟨?_, ?_, ?_, ?_, ?_⟩ <;>
        simp_all [Edge.deactivate, hia, hemp]
    · have hrun : Edge.deactivate e =
          (Edge.get_queued_detections e,
           { Edge.mark_transmitted e
               ((Edge.get_queued_detections e).map (fun d => d.id)) with
             is_active := false, blackout_id := none, activated_at := none }) := by
        simp [Edge.deactivate, hia, hemp]
      refine ⟨by rw [hrun], by rw [hrun], by rw [hrun], by rw [hrun], ?_⟩
      rw [hrun]
      intro r hr
      simp only [Edge.mark_transmitted, List.mem_map] at hr
      obtain ⟨x, hx, hxr⟩ := hr
      by_cases hxt : x.transmitted = true
      · by_cases hc : ((Edge.get_queued_detections e).map (fun d => d.id)).contains x.id
        · rw [if_pos hc] at hxr
          rw [← hxr]
        · rw [if_neg hc] at hxr
          rw [← hxr]
          exact hxt
      · have hxm : x ∈ e.rows.filter (fun r => !r.transmitted) := by
          simp only [List.mem_filter, Bool.not_eq_true']
          exact ⟨hx, Bool.eq_false_iff.mpr hxt⟩
        have hid : x.id ∈ (Edge.get_queued_detections e).map (fun d => d.id) := by
          apply List.mem_map.mpr
          refine ⟨{ id := x.id, queued_at := x.queued_at,
                    detection := x.detection_data }, ?_, rfl⟩
          apply List.mem_map.mpr
          exact ⟨x, (mem_sortByKey _ _ _).mpr hxm, rfl⟩
        have hc : ((Edge.get_queued_detections e).map (fun d => d.id)).contains x.id
            = true := List.elem_iff.mpr hid
        rw [if_pos hc] at hxr
        rw [← hxr]

/-- Witness for C9 at a concrete active controller holding one transmitted
and one untransmitted row. -/
theorem c9_witness :
    (Edge.deactivate
      { rows := [{ id := 1, queued_at := 5, detection_data := "a",
                   transmitted := true },
                 { id := 2, queued_at := 6, detection_data := "b",
                   transmitted := false }],
        nextRowId := 3, is_active := true, blackout_id := some 4,
        activated_at := some 5 }).1 =
      Edge.get_queued_detections
        { rows := [{ id := 1, queued_at := 5, detection_data := "a",
                     transmitted := true },
                   { id := 2, queued_at := 6, detection_data := "b",
                     transmitted := false }],
          nextRowId := 3, is_active := true, blackout_id := some 4,
          activated_at := some 5 } ∧
    (Edge.deactivate
      { rows := [{ id := 1, queued_at := 5, detection_data := "a",
                   transmitted := true },
                 { id := 2, queued_at := 6, detection_data := "b",
                   transmitted := false }],
        nextRowId := 3, is_active := true, blackout_id := some 4,
        activated_at := some 5 }).2.is_active = false := by
  have h := (c9_edge_deactivate_semantics
    { rows := [{ id := 1, queued_at := 5, detection_data := "a",
                 transmitted := true },
               { id := 2, queued_at := 6, detection_data := "b",
                 transmitted := false }],
      nextRowId := 3, is_active := true, blackout_id := some 4,
      activated_at := some 5 }).2 rfl
  exact ⟨h.1, h.2.1⟩

/-! ### C7 — queue ordering is insertion order -/

/-- C7: when the stored timestamps increase along insertion order — which
the enqueue paths guarantee, since both stores append rows stamped with the
current time and, on the edge, with an autoincremented id —
`get_pending_items` returns the node's pending items exactly in the order
they were enqueued, and the edge controller's `get_queued_detections`
returns the untransmitted detections in strict insertion order, both for
listing and for the drain performed by `deactivate`. -/
theorem c7_queue_insertion_order (s : Backend.CState) (nid : Nat)
    (e : Edge.EdgeState)
    (hc : (s.items.filter
        (fun it => it.node_id == nid && it.status == "pending")).Pairwise
      (fun a b => a.created_at.val ≤ b.created_at.val))
    (he : (e.rows.filter (fun r => !r.transmitted)).Pairwise
      (fun a b => a.id ≤ b.id)) :
    Backend.get_pending_items s nid =
      (s.items.filter (fun it => it.node_id == nid && it.status == "pending")).map
        (fun it => { id := it.id, payload := it.payload,
                     retry_count := it.retry_count, created_at := it.created_at,
                     next_attempt_at := it.next_attempt_at }) ∧
    Edge.get_queued_detections e =
      (e.rows.filter (fun r => !r.transmitted)).map
        (fun r => { id := r.id, queued_at := r.queued_at,
                    detection := r.detection_data }) ∧
    (e.is_active = true →
      (Edge.deactivate e).1 =
        (e.rows.filter (fun r => !r.transmitted)).map
          (fun r => { id := r.id, queued_at := r.queued_at,
                      detection := r.detection_data })) := by
  have hedge : Edge.get_queued_detections e =
      (e.rows.filter (fun r => !r.transmitted)).map
        (fun r => { id := r.id, queued_at := r.queued_at,
                    detection := r.detection_data }) := by
    rw [Edge.get_queued_detections,
      sortByKey_of_sorted _ _ (he.imp (fun h => by simpa using h))]
  refine ⟨?_, hedge, fun hia => ?_⟩
  · rw [Backend.get_pending_items,
      sortByKey_of_sorted _ _ (hc.imp (fun h => by simpa using h))]
  · rw [← hedge]
    by_cases hemp : (Edge.get_queued_detections e).isEmpty = true
    · simp [Edge.deactivate, hia, hemp]
    · simp [Edge.deactivate, hia, hemp]

/-- Witness for C7: a center store of three pending items (one belonging to
another node, one completed) with increasing timestamps, and an edge store
of two untransmitted rows with increasing ids. -/
theorem c7_witness :
    Backend.get_pending_items
      { nodes := [], events := [],
        items := [{ id := 1, node_id := 1, payload := "p0", status := "pending",
                    retry_count := 0, created_at := { val := 10, aware := true },
                    processed_at := none, next_attempt_at := none },
                  { id := 2, node_id := 2, payload := "q", status := "pending",
                    retry_count := 0, created_at := { val := 11, aware := true },
                    processed_at := none, next_attempt_at := none },
                  { id := 3, node_id := 1, payload := "p1", status := "completed",
                    retry_count := 0, created_at := { val := 12, aware := true },
                    processed_at := none, next_attempt_at := none },
                  { id := 4, node_id := 1, payload := "p2", status := "pending",
                    retry_count := 0, created_at := { val := 13, aware := true },
                    processed_at := none, next_attempt_at := none }],
        nextNodeId := 1, nextEventId := 1, nextItemId := 5 } 1 =
      [{ id := 1, payload := "p0", retry_count := 0,
         created_at := { val := 10, aware := true }, next_attempt_at := none },
       { id := 4, payload := "p2", retry_count := 0,
         created_at := { val := 13, aware := true }, next_attempt_at := none }] ∧
    Edge.get_queued_detections
      { rows := [{ id := 1, queued_at := 5, detection_data := "a",
                   transmitted := false },
                 { id := 2, queued_at := 6, detection_data := "b",
                   transmitted := false }],
        nextRowId := 3, is_active := true, blackout_id := none,
        activated_at := none } =
      [{ id := 1, queued_at := 5, detection := "a" },
       { id := 2, queued_at := 6, detection := "b" }] := by
  have h := c7_queue_insertion_order
    { nodes := [], events := [],
      items := [{ id := 1, node_id := 1, payload := "p0", status := "pending",
                  retry_count := 0, created_at := { val := 10, aware := true },
                  processed_at := none, next_attempt_at := none },
                { id := 2, node_id := 2, payload := "q", status := "pending",
                  retry_count := 0, created_at := { val := 11, aware := true },
                  processed_at := none, next_attempt_at := none },
                { id := 3, node_id := 1, payload := "p1", status := "completed",
                  retry_count := 0, created_at := { val := 12, aware := true },
                  processed_at := none, next_attempt_at := none },
                { id := 4, node_id := 1, payload := "p2", status := "pending",
                  retry_count := 0, created_at := { val := 13, aware := true },
                  processed_at := none, next_attempt_at := none }],
      nextNodeId := 1, nextEventId := 1, nextItemId := 5 } 1
    { rows := [{ id := 1, queued_at := 5, detection_data := "a",
                 transmitted := false },
               { id := 2, queued_at := 6, detection_data := "b",
                 transmitted := false }],
      nextRowId := 3, is_active := true, blackout_id := none,
      activated_at := none }
    (by decide) (by decide)
  exact ⟨by rw [h.1]; rfl, by rw [h.2.1]; rfl⟩

/-! ### C5 — burst reconciliation partitions the input and reports
success or partial -/

theorem processBatch_eq (o : Nat → Nat → Burst.TxOutcome) (mr : Nat)
    (l : List Edge.QueuedDetection) :
    ∀ acc, Burst.processBatch o mr l acc =
      (acc.1 ++ (l.filter (fun d => Burst.itemSucceeds (o d.id) 0 mr)).map
        (fun d => d.id),
       acc.2 ++ (l.filter (fun d => !Burst.itemSucceeds (o d.id) 0 mr)).map
        (fun d => d.id)) := by
  induction l with
  | nil => intro acc; simp [Burst.processBatch]
  | cons d rest ih =>
    intro acc
    by_cases hs : Burst.itemSucceeds (o d.id) 0 mr = true
    · simp [Burst.processBatch, hs, ih]
    · have hs2 : Burst.itemSucceeds (o d.id) 0 mr = false := Bool.eq_false_iff.mpr hs
      simp [Burst.processBatch, hs2, ih]

theorem processBatch_append (o : Nat → Nat → Burst.TxOutcome) (mr : Nat)
    (a b : List Edge.QueuedDetection) (acc : List Nat × List Nat) :
    Burst.processBatch o mr (a ++ b) acc =
      Burst.processBatch o mr b (Burst.processBatch o mr a acc) := by
  simp [processBatch_eq, List.filter_append]

theorem chunks_flatten {α : Type} (bs : Nat) (hbs : 0 < bs) (l : List α) :
    (Burst.chunks bs l).flatten = l := by
  by_cases hl : l = []
  · subst hl
    rw [Burst.chunks]
    simp
  · rw [Burst.chunks,
      if_neg (by simp [hl, Nat.pos_iff_ne_zero.mp hbs]), List.flatten_cons,
      chunks_flatten bs hbs (l.drop bs), List.take_append_drop]
termination_by l.length
decreasing_by
  rw [List.length_drop]
  exact Nat.sub_lt (List.length_pos.mpr hl) hbs

theorem foldl_processBatch (o : Nat → Nat → Burst.TxOutcome) (mr : Nat)
    (cs : List (List Edge.QueuedDetection)) :
    ∀ acc, cs.foldl (fun acc batch => Burst.processBatch o mr batch acc) acc =
      Burst.processBatch o mr cs.flatten acc := by
  induction cs with
  | nil => intro acc; simp [Burst.processBatch]
  | cons b rest ih =>
    intro acc
    rw [List.foldl_cons, List.flatten_cons, processBatch_append, ih]

theorem count_filter_partition {α : Type} (p : α → Bool) (f : α → Nat)
    (l : List α) (i : Nat) :
    ((l.filter p).map f).count i + ((l.filter (fun x => !p x)).map f).count i =
      (l.map f).count i := by
  induction l with
  | nil => rfl
  | cons a rest ih =>
    by_cases hp : p a = true
    · simp only [List.filter_cons, hp, Bool.not_true, Bool.false_eq_true, if_false,
        if_true, List.map_cons, List.count_cons]
      omega
    · have hp2 : p a = false := Bool.eq_false_iff.mpr hp
      simp only [List.filter_cons, hp2, Bool.not_false, Bool.false_eq_true, if_false,
        if_true, List.map_cons, List.count_cons]
      omega

/-- C5: with network outcomes supplied by an arbitrary oracle, the burst
reconciliation protocol returns a result rather than raising when items
fail: each occurrence of an input item's id lands in exactly one of
`transmitted_ids` and `failed_ids` (the counts of the two lists partition
the input's id count), the reported status is `success` exactly when
`failed_ids` is empty and is `partial` in every other case, and the total
echoes the input size. -/
theorem c5_burst_partition_and_status (dets : List Edge.QueuedDetection)
    (o : Nat → Nat → Burst.TxOutcome) (bs mr : Nat) (hbs : 0 < bs) :
    (∀ i : Nat,
      (Burst.transmit_queued_detections dets o bs mr).transmitted_ids.count i +
      (Burst.transmit_queued_detections dets o bs mr).failed_ids.count i =
      (dets.map (fun d => d.id)).count i) ∧
    ((Burst.transmit_queued_detections dets o bs mr).status = "success" ↔
      (Burst.transmit_queued_detections dets o bs mr).failed_ids = []) ∧
    ((Burst.transmit_queued_detections dets o bs mr).status = "success" ∨
      (Burst.transmit_queued_detections dets o bs mr).status = "partial") ∧
    (Burst.transmit_queued_detections dets o bs mr).total = dets.length := by
  by_cases hd : dets = []
  · subst hd
    refine ⟨fun i => rfl, by simp [Burst.transmit_queued_detections], ?_, rfl⟩
    left
    rfl
  · have hacc : (Burst.chunks bs dets).foldl
        (fun acc batch => Burst.processBatch o mr batch acc) ([], []) =
        ((dets.filter (fun d => Burst.itemSucceeds (o d.id) 0 mr)).map
          (fun d => d.id),
         (dets.filter (fun d => !Burst.itemSucceeds (o d.id) 0 mr)).map
          (fun d => d.id)) := by
      rw [foldl_processBatch, chunks_flatten bs hbs, processBatch_eq]
      simp
    have hrun : Burst.transmit_queued_detections dets o bs mr =
        { status :=
            if ((dets.filter (fun d => !Burst.itemSucceeds (o d.id) 0 mr)).map
                (fun d => d.id)).length == 0 then "success" else "partial",
          total := dets.length,
          transmitted := ((dets.filter
            (fun d => Burst.itemSucceeds (o d.id) 0 mr)).map (fun d => d.id)).length,
          transmitted_ids := (dets.filter
            (fun d => Burst.itemSucceeds (o d.id) 0 mr)).map (fun d => d.id),
          failed := ((dets.filter
            (fun d => !Burst.itemSucceeds (o d.id) 0 mr)).map (fun d => d.id)).length,
          failed_ids := (dets.filter
            (fun d => !Burst.itemSucceeds (o d.id) 0 mr)).map (fun d => d.id) } := by
      simp only [Burst.transmit_queued_detections, if_neg hd, hacc]
    rw [hrun]
    dsimp only
    refine ⟨fun i => count_filter_partition _ _ dets i, ?_, ?_, rfl⟩
    · by_cases hf : (((dets.filter (fun d => !Burst.itemSucceeds (o d.id) 0 mr)).map
          (fun d => d.id)).length == 0) = true
      · rw [if_pos hf]
        have hF : (dets.filter (fun d => !Burst.itemSucceeds (o d.id) 0 mr)).map
            (fun d => d.id) = [] := List.length_eq_zero.mp (beq_iff_eq.mp hf)
        simp [hF]
      · rw [if_neg hf]
        refine iff_of_false (fun h => ?_) (fun hF => hf ?_)
        · exact absurd h (by decide)
        · rw [hF]
          rfl
    · by_cases hf : (((dets.filter (fun d => !Burst.itemSucceeds (o d.id) 0 mr)).map
          (fun d => d.id)).length == 0) = true
      · left; rw [if_pos hf]
      · right; rw [if_neg hf]

/-- Witness for C5: two queued detections against an oracle under which id 1
gets a 200 on the first attempt and id 2 hits a non-retryable exception; the
id counts partition and the status is success exactly when nothing failed. -/
theorem c5_witness :
    ((Burst.transmit_queued_detections
        [{ id := 1, queued_at := 0, detection := "a" },
         { id := 2, queued_at := 1, detection := "b" }]
        (fun i _ => if i == 1 then .status 200 else .unexpected)
        10 3).transmitted_ids.count 2 +
      (Burst.transmit_queued_detections
        [{ id := 1, queued_at := 0, detection := "a" },
         { id := 2, queued_at := 1, detection := "b" }]
        (fun i _ => if i == 1 then .status 200 else .unexpected)
        10 3).failed_ids.count 2 =
      (([{ id := 1, queued_at := 0, detection := "a" },
         { id := 2, queued_at := 1, detection := "b" }] :
          List Edge.QueuedDetection).map (fun d => d.id)).count 2) ∧
    ((Burst.transmit_queued_detections
        [{ id := 1, queued_at := 0, detection := "a" },
         { id := 2, queued_at := 1, detection := "b" }]
        (fun i _ => if i == 1 then .status 200 else .unexpected)
        10 3).status = "success" ↔
      (Burst.transmit_queued_detections
        [{ id := 1, queued_at := 0, detection := "a" },
         { id := 2, queued_at := 1, detection := "b" }]
        (fun i _ => if i == 1 then .status 200 else .unexpected)
        10 3).failed_ids = []) := by
  have h := c5_burst_partition_and_status
    [{ id := 1, queued_at := 0, detection := "a" },
     { id := 2, queued_at := 1, detection := "b" }]
    (fun i _ => if i == 1 then .status 200 else .unexpected)
    10 3 (by decide)
  exact ⟨h.1 2, h.2.1⟩

/-! ### C2 — is a failed item really frozen forever? -/

/-- C2 counterexample: the claim says no subsequent queue operation ever
changes a `failed` item, but `mark_completed` is an unguarded UPDATE by id:
invoked on a store holding exactly one item, which is `failed` with the
retry counter at the maximum, it flips that item's status to `completed` and
stamps a completion time. -/
theorem c2_counterexample_mark_completed_mutates_failed :
    (Backend.mark_completed
      { nodes := [], events := [],
        items := [{ id := 1, node_id := 1, payload := "p", status := "failed",
                    retry_count := 5, created_at := { val := 0, aware := true },
                    processed_at := none, next_attempt_at := none }],
        nextNodeId := 1, nextEventId := 1, nextItemId := 2 } 1 9).items.map
      (fun it => (it.status, it.processed_at)) =
      [("completed", some (dtNow 9))] ∧
    ([{ id := 1, node_id := 1, payload := "p", status := "failed",
        retry_count := 5, created_at := { val := 0, aware := true },
        processed_at := none, next_attempt_at := none }] :
      List Backend.QueueItem).map (fun it => (it.status, it.processed_at)) =
      [("failed", none)] := by
  constructor <;> rfl

/-- C2 amended: a `failed` item is indeed never touched by the queue
processor — `process_queue` only reads and marks `pending` items, so the
failed row survives `process_queue` with all its fields intact, and its id is
never among the items `get_pending_items` returns — but the guarantee does
not extend to direct `mark_completed` / `mark_failed` calls, whose UPDATEs
are not guarded by status (see the counterexample). -/
theorem c2_amended_failed_frozen_under_processing (s : Backend.CState)
    (nid : Nat) (now : Int) (f : Backend.QueueItem)
    (hf : f ∈ s.items) (hst : f.status = "failed")
    (hnd : (s.items.map (fun it => it.id)).Nodup) :
    f ∈ (Backend.process_queue s nid now).items ∧
    f.id ∉ (Backend.get_pending_items s nid).map (fun d => d.id) := by
  have hnotpend : ∀ d ∈ Backend.get_pending_items s nid, d.id ≠ f.id := by
    intro d hd hdf
    simp only [Backend.get_pending_items, List.mem_map, mem_sortByKey,
      List.mem_filter, Bool.and_eq_true, beq_iff_eq] at hd
    obtain ⟨p, ⟨hp, _, hps⟩, hpd⟩ := hd
    have hpid : p.id = f.id := by rw [← hdf, ← hpd]
    have hpf : p = f := List.inj_on_of_nodup_map hnd hp hf hpid
    rw [hpf, hst] at hps
    exact absurd hps (by decide)
  constructor
  · have hpres : ∀ (ds : List Backend.PendingDict),
        (∀ d ∈ ds, d.id ≠ f.id) → ∀ s0 : Backend.CState, f ∈ s0.items →
        f ∈ (ds.foldl (fun st d =>
          match d.next_attempt_at with
          | some na =>
            if now < na.normalizeUTC.val then st else Backend.mark_completed st d.id now
          | none => Backend.mark_completed st d.id now) s0).items := by
      intro ds
      induction ds with
      | nil => intro _ s0 h0; simpa using h0
      | cons d rest ih =>
        intro hds s0 h0
        rw [List.foldl_cons]
        apply ih (fun x hx => hds x (List.mem_cons_of_mem d hx))
        have hne : d.id ≠ f.id := hds d (List.mem_cons_self d rest)
        have hmc : ∀ st : Backend.CState, f ∈ st.items →
            f ∈ (Backend.mark_completed st d.id now).items := by
          intro st hin
          apply List.mem_map.mpr
          refine ⟨f, hin, ?_⟩
          rw [if_neg (by simpa using fun h => hne h.symm)]
        cases d.next_attempt_at with
        | none => exact hmc s0 h0
        | some na =>
          dsimp only
          by_cases hlt : now < na.normalizeUTC.val
          · rw [if_pos hlt]; exact h0
          · rw [if_neg hlt]; exact hmc s0 h0
    exact hpres (Backend.get_pending_items s nid) hnotpend s hf
  · intro hmem
    simp only [List.mem_map] at hmem
    obtain ⟨d, hd, hdf⟩ := hmem
    exact hnotpend d hd hdf

/-- Witness for C2's amended theorem: a store with one failed and one pending
item; the failed row survives `process_queue` and is not dequeued. -/
theorem c2_witness :
    ({ id := 1, node_id := 1, payload := "p", status := "failed",
       retry_count := 5, created_at := { val := 0, aware := true },
       processed_at := none, next_attempt_at := none } : Backend.QueueItem) ∈
      (Backend.process_queue
        { nodes := [], events := [],
          items := [{ id := 1, node_id := 1, payload := "p", status := "failed",
                      retry_count := 5, created_at := { val := 0, aware := true },
                      processed_at := none, next_attempt_at := none },
                    { id := 2, node_id := 1, payload := "q", status := "pending",
                      retry_count := 0, created_at := { val := 1, aware := true },
                      processed_at := none, next_attempt_at := none }],
          nextNodeId := 1, nextEventId := 1, nextItemId := 3 } 1 50).items ∧
    (1 : Nat) ∉ (Backend.get_pending_items
        { nodes := [], events := [],
          items := [{ id := 1, node_id := 1, payload := "p", status := "failed",
                      retry_count := 5, created_at := { val := 0, aware := true },
                      processed_at := none, next_attempt_at := none },
                    { id := 2, node_id := 1, payload := "q", status := "pending",
                      retry_count := 0, created_at := { val := 1, aware := true },
                      processed_at := none, next_attempt_at := none }],
          nextNodeId := 1, nextEventId := 1, nextItemId := 3 } 1).map
      (fun d => d.id) :=
  c2_amended_failed_frozen_under_processing _ 1 50
    { id := 1, node_id := 1, payload := "p", status := "failed",
      retry_count := 5, created_at := { val := 0, aware := true },
      processed_at := none, next_attempt_at := none }
    (by decide) rfl (by decide)

/-! ### C4 — which nodes does stuck recovery move? -/

/-- C4 counterexample: a node in `resuming` whose most-recently-closed
episode was deactivated 5 seconds before now — far less than the 60-second
timeout — is nevertheless force-set back to `online`, because the scan joins
on *any* deactivated episode older than the threshold and the node also has
an old episode closed at instant 0.  The claim's "never moves a node whose
most-recently-closed episode was deactivated less than timeoutMinutes ago"
is therefore false. -/
theorem c4_counterexample_recover_moves_recently_deactivated :
    (∀ e ∈ Backend.closedEventsFor
      { nodes := [{ id := 1, node_id := "n1", status := "resuming",
                    last_heartbeat := none }],
        events := [{ id := 1, node_id := 1,
                     activated_at := { val := -100, aware := true },
                     deactivated_at := some { val := 0, aware := true },
                     activated_by := none, reason := none, detections_queued := 0,
                     duration_seconds := some 100, detections_transmitted := none },
                   { id := 2, node_id := 1,
                     activated_at := { val := 50, aware := true },
                     deactivated_at := some { val := 95, aware := true },
                     activated_by := none, reason := none, detections_queued := 0,
                     duration_seconds := some 45, detections_transmitted := none }],
        items := [], nextNodeId := 2, nextEventId := 3, nextItemId := 1 }
      1, Backend.deactKey e ≤ 95) ∧
    ((100 : Int) - 95 < 1 * 60) ∧
    ((Backend.recover_stuck_resuming_nodes
      { nodes := [{ id := 1, node_id := "n1", status := "resuming",
                    last_heartbeat := none }],
        events := [{ id := 1, node_id := 1,
                     activated_at := { val := -100, aware := true },
                     deactivated_at := some { val := 0, aware := true },
                     activated_by := none, reason := none, detections_queued := 0,
                     duration_seconds := some 100, detections_transmitted := none },
                   { id := 2, node_id := 1,
                     activated_at := { val := 50, aware := true },
                     deactivated_at := some { val := 95, aware := true },
                     activated_by := none, reason := none, detections_queued := 0,
                     duration_seconds := some 45, detections_transmitted := none }],
        items := [], nextNodeId := 2, nextEventId := 3, nextItemId := 1 }
      100 1).toOption.map (fun p => p.2.nodes.map (fun n => n.status)) =
      some ["online"]) := by
  exact ⟨by decide, by decide, rfl⟩

/-- C4 amended: `recover_stuck_resuming_nodes` raises `TypeError` — changing
nothing — exactly when some joined pair (resuming node, closed episode older
than the threshold) stores a timezone-naive deactivation time; whenever the
run completes instead, it force-sets a node back to `online` exactly when
the node is in `resuming` and has at least one closed episode whose
deactivation time is older than `timeoutMinutes` ago — not necessarily its
most-recently-closed episode; such nodes are reported (with their stuck
duration) in the returned list, every returned record stems from such a
qualifying node-episode pair, and a node with no closed episode older than
the timeout is never moved. -/
theorem c4_amended_recover_joins_any_old_episode (s : Backend.CState)
    (now t : Int) :
    (Backend.recover_stuck_resuming_nodes s now t =
        .error "TypeError: cannot subtract offset-naive and offset-aware datetimes"
      ↔ ∃ n ∈ s.nodes, ∃ e ∈ s.events, n.status = "resuming" ∧
          e.node_id = n.id ∧ Backend.stuckQual (now - t * 60) e = true ∧
          Backend.deactAware e = false) ∧
    (∀ res, Backend.recover_stuck_resuming_nodes s now t = .ok res →
      (∀ n ∈ s.nodes, n.status = "resuming" →
        (∃ e ∈ s.events, e.node_id = n.id ∧
          Backend.stuckQual (now - t * 60) e = true) →
        { n with status := "online" } ∈ res.2.nodes ∧
        n.node_id ∈ res.1.map (fun r => r.node_id)) ∧
      (∀ n ∈ s.nodes,
        (n.status ≠ "resuming" ∨ ∀ e ∈ s.events, e.node_id = n.id →
          Backend.stuckQual (now - t * 60) e = false) →
        n ∈ res.2.nodes) ∧
      (∀ r ∈ res.1,
        ∃ n ∈ s.nodes, ∃ e ∈ s.events, n.status = "resuming" ∧
          r.node_id = n.node_id ∧ e.node_id = n.id ∧
          Backend.stuckQual (now - t * 60) e = true)) := by
  constructor
  · by_cases hbad : (((s.nodes.filter (fun n => n.status == "resuming")).flatMap
        (fun n => (s.events.filter (fun e => e.node_id == n.id &&
          Backend.stuckQual (now - t * 60) e)).map (fun e => (n, e)))).any
        (fun p => !Backend.deactAware p.2)) = true
    · have herr : Backend.recover_stuck_resuming_nodes s now t = .error
          "TypeError: cannot subtract offset-naive and offset-aware datetimes" := by
        simp [Backend.recover_stuck_resuming_nodes, hbad]
      refine iff_of_true herr ?_
      rw [List.any_eq_true] at hbad
      obtain ⟨p, hp, hpbad⟩ := hbad
      simp only [List.mem_flatMap, List.mem_filter, List.mem_map] at hp
      obtain ⟨n, ⟨hn, hres⟩, e, ⟨he, hq⟩, hpe⟩ := hp
      simp only [Bool.and_eq_true, beq_iff_eq] at hq
      refine ⟨n, hn, e, he, by simpa using hres, hq.1, hq.2, ?_⟩
      have hp2 : p.2 = e := by rw [← hpe]
      rw [hp2] at hpbad
      simpa using hpbad
    · refine iff_of_false (fun herr => ?_) (fun hex => ?_)
      · rw [show Backend.recover_stuck_resuming_nodes s now t = .ok
            (((s.nodes.filter (fun n => n.status == "resuming")).flatMap (fun n =>
              (s.events.filter (fun e => e.node_id == n.id &&
                Backend.stuckQual (now - t * 60) e)).map (fun e => (n, e)))).map
              (fun p =>
              { node_id := p.1.node_id, blackout_id := p.2.id,
                deactivated_at := p.2.deactivated_at,
                stuck_duration_minutes := (now - Backend.deactKey p.2) / 60 }),
             { s with nodes := s.nodes.map (fun n =>
                if n.status == "resuming" && s.events.any (fun e =>
                    e.node_id == n.id && Backend.stuckQual (now - t * 60) e) then
                  { n with status := "online" }
                else n) }) from by
          simp [Backend.recover_stuck_resuming_nodes, hbad]] at herr
        exact Except.noConfusion herr
      · obtain ⟨n, hn, e, he, hres, hei, hq, hna⟩ := hex
        apply hbad
        rw [List.any_eq_true]
        refine ⟨(n, e), ?_, by simpa using hna⟩
        apply List.mem_flatMap.mpr
        refine ⟨n, List.mem_filter.mpr ⟨hn, by simp [hres]⟩, ?_⟩
        apply List.mem_map.mpr
        exact ⟨e, List.mem_filter.mpr ⟨he, by simp [hei, hq]⟩, rfl⟩
  · intro res hok
    obtain ⟨hres1, hres2⟩ := recover_ok_inv s now t res hok
    refine ⟨?_, ?_, ?_⟩
    · intro n hn hres hex
      obtain ⟨e, he, hei, hq⟩ := hex
      have hcond : (n.status == "resuming" &&
          s.events.any (fun e => e.node_id == n.id &&
            Backend.stuckQual (now - t * 60) e)) = true := by
        simp only [Bool.and_eq_true, beq_iff_eq, List.any_eq_true]
        exact ⟨hres, e, he, by simp [hei, hq]⟩
      constructor
      · rw [hres2]
        apply List.mem_map.mpr
        refine ⟨n, hn, ?_⟩
        rw [if_pos hcond]
      · rw [hres1]
        apply List.mem_map.mpr
        refine ⟨{ node_id := n.node_id, blackout_id := e.id,
                  deactivated_at := e.deactivated_at,
                  stuck_duration_minutes := (now - Backend.deactKey e) / 60 },
          ?_, rfl⟩
        apply List.mem_map.mpr
        refine ⟨(n, e), ?_, rfl⟩
        apply List.mem_flatMap.mpr
        refine ⟨n, List.mem_filter.mpr ⟨hn, by simp [hres]⟩, ?_⟩
        apply List.mem_map.mpr
        refine ⟨e, List.mem_filter.mpr ⟨he, by simp [hei, hq]⟩, rfl⟩
    · intro n hn hside
      rw [hres2]
      apply List.mem_map.mpr
      refine ⟨n, hn, ?_⟩
      apply if_neg
      simp only [Bool.and_eq_true, beq_iff_eq, List.any_eq_true, not_and]
      intro hres hany
      obtain ⟨e, he, hq⟩ := hany
      rcases hside with hns | hall
      · exact hns hres
      · rw [hall e he hq.1] at hq
        exact absurd hq.2 (by simp)
    · intro r hr
      rw [hres1] at hr
      simp only [List.mem_map] at hr
      obtain ⟨p, hp, hpr⟩ := hr
      simp only [List.mem_flatMap, List.mem_filter, List.mem_map] at hp
      obtain ⟨n, ⟨hn, hres⟩, e, ⟨he, hq⟩, hpe⟩ := hp
      simp only [Bool.and_eq_true, beq_iff_eq] at hq
      refine ⟨n, hn, e, he, by simpa using hres, ?_, hq.1, hq.2⟩
      rw [← hpr, ← hpe]

/-- Witness for C4's amended theorem at a concrete store whose episode
stores an aware deactivation time: the run succeeds and the resuming node
with an episode closed at instant 0, well past the 60-second threshold
before instant 100, is moved to `online` and reported. -/
theorem c4_witness :
    ({ id := 1, node_id := "n1", status := "online", last_heartbeat := none } :
        Backend.Node) ∈
      ({ nodes := [{ id := 1, node_id := "n1", status := "online",
                     last_heartbeat := none }],
         events := [{ id := 1, node_id := 1,
                      activated_at := { val := -100, aware := true },
                      deactivated_at := some { val := 0, aware := true },
                      activated_by := none, reason := none,
                      detections_queued := 0, duration_seconds := some 100,
                      detections_transmitted := none }],
         items := [], nextNodeId := 2, nextEventId := 2,
         nextItemId := 1 } : Backend.CState).nodes ∧
    "n1" ∈ ([{ node_id := "n1", blackout_id := 1,
               deactivated_at := some { val := 0, aware := true },
               stuck_duration_minutes := 1 }] :
        List Backend.RecoveredInfo).map (fun r => r.node_id) :=
  ((c4_amended_recover_joins_any_old_episode
    { nodes := [{ id := 1, node_id := "n1", status := "resuming",
                  last_heartbeat := none }],
      events := [{ id := 1, node_id := 1,
                   activated_at := { val := -100, aware := true },
                   deactivated_at := some { val := 0, aware := true },
                   activated_by := none, reason := none, detections_queued := 0,
                   duration_seconds := some 100, detections_transmitted := none }],
      items := [], nextNodeId := 2, nextEventId := 2, nextItemId := 1 }
    100 1).2
    ([{ node_id := "n1", blackout_id := 1,
        deactivated_at := some { val := 0, aware := true },
        stuck_duration_minutes := 1 }],
     { nodes := [{ id := 1, node_id := "n1", status := "online",
                   last_heartbeat := none }],
       events := [{ id := 1, node_id := 1,
                    activated_at := { val := -100, aware := true },
                    deactivated_at := some { val := 0, aware := true },
                    activated_by := none, reason := none, detections_queued := 0,
                    duration_seconds := some 100, detections_transmitted := none }],
       items := [], nextNodeId := 2, nextEventId := 2, nextItemId := 1 })
    rfl).1
    { id := 1, node_id := "n1", status := "resuming", last_heartbeat := none }
    (by decide) rfl
    ⟨{ id := 1, node_id := 1, activated_at := { val := -100, aware := true },
       deactivated_at := some { val := 0, aware := true }, activated_by := none,
       reason := none, detections_queued := 0, duration_seconds := some 100,
       detections_transmitted := none }, by decide, rfl, by decide⟩

/-! ### C1 — at most one open episode per node -/

theorem select_singleton_props {s : Backend.CState} {nid : String}
    {n : Backend.Node} (h : Backend.selectNodeByNodeId s nid = [n]) :
    n ∈ s.nodes ∧ n.node_id = nid := by
  have hmem : n ∈ Backend.selectNodeByNodeId s nid := by
    rw [h]
    exact List.mem_singleton_self n
  have h2 := List.mem_filter.mp hmem
  exact ⟨h2.1, by simpa using h2.2⟩

theorem select_singleton_unique {s : Backend.CState} {nid : String}
    {n : Backend.Node} (h : Backend.selectNodeByNodeId s nid = [n]) :
    ∀ x ∈ s.nodes, x.node_id = nid → x = n := by
  intro x hx hxn
  have hmem : x ∈ Backend.selectNodeByNodeId s nid :=
    List.mem_filter.mpr ⟨hx, by simpa using hxn⟩
  rw [h] at hmem
  simpa using hmem

theorem scalarOneOrNone_sortByKey {α : Type} (le : α → α → Bool) (l : List α) :
    scalarOneOrNone (sortByKey le l) =
      (match l with
      | [] => .ok none
      | [a] => .ok (some a)
      | _ :: _ :: _ => .error "MultipleResultsFound") := by
  match l with
  | [] => rfl
  | [a] => rfl
  | a :: b :: l2 =>
    have hlen : (sortByKey le (a :: b :: l2)).length = l2.length + 2 := by
      rw [length_sortByKey]
      rfl
    cases hsk : sortByKey le (a :: b :: l2) with
    | nil => rw [hsk] at hlen; simp at hlen
    | cons x xs =>
      cases xs with
      | nil => rw [hsk] at hlen; simp at hlen
      | cons y ys => rfl

theorem map_nodes_id (g : Backend.Node → Backend.Node)
    (hg : ∀ x, (g x).id = x.id) (l : List Backend.Node) :
    (l.map g).map (fun n => n.id) = l.map (fun n => n.id) := by
  rw [List.map_map]
  apply List.map_congr_left
  intro x _
  exact hg x

theorem openEventsFor_map_fields (s : Backend.CState) (nodes' : List Backend.Node)
    (g : Backend.BlackoutEvent → Backend.BlackoutEvent)
    (hid : ∀ e, (g e).node_id = e.node_id)
    (hde : ∀ e, (g e).deactivated_at.isNone = e.deactivated_at.isNone)
    (rid : Nat) :
    Backend.openEventsFor { s with events := s.events.map g, nodes := nodes' }
      rid = (Backend.openEventsFor s rid).map g := by
  show (s.events.map g).filter _ = ((s.events.filter _).map g)
  rw [List.filter_map]
  apply congrArg
  apply List.filter_congr
  intro x _
  simp [Function.comp, hid x, hde x]

theorem inv_init : Backend.Inv Backend.initState := by
  refine ⟨?_, ?_, ?_, ?_, ?_⟩ <;> simp [Backend.initState, Backend.openEventsFor]

theorem inv_register (s : Backend.CState) (now : Int) (nid : String)
    (h : Backend.Inv s) :
    Backend.Inv (Backend.applyOp s now (.register nid)) := by
  obtain ⟨h1, h2, h3, h4, h5⟩ := h
  cases hsel : Backend.selectNodeByNodeId s nid with
  | nil =>
    have happ : Backend.applyOp s now (Backend.COp.register nid) =
        { s with
          nodes := s.nodes ++
            [Backend.Node.mk s.nextNodeId nid "online" (some (dtNow now))],
          nextNodeId := s.nextNodeId + 1 } := by
      simp [Backend.applyOp, Backend.register_node, hsel, scalarOneOrNone_nil,
        Bind.bind, Except.bind]
    rw [happ]
    refine ⟨?_, ?_, ?_, ?_, ?_⟩
    · intro m hm
      rcases List.mem_append.mp hm with hm | hm
      · exact Nat.lt_succ_of_lt (h1 m hm)
      · have hm2 : m = Backend.Node.mk s.nextNodeId nid "online"
            (some (dtNow now)) := by simpa using hm
        rw [hm2]
        exact Nat.lt_succ_self _
    · rw [List.map_append]
      refine List.Nodup.append h2 (List.nodup_singleton _) ?_
      intro a ha hb
      simp only [List.map_cons, List.map_nil, List.mem_singleton] at hb
      subst hb
      simp only [List.mem_map] at ha
      obtain ⟨x, hx, hxa⟩ := ha
      exact absurd hxa (Nat.ne_of_lt (h1 x hx))
    · intro e he
      exact Nat.lt_succ_of_lt (h3 e he)
    · intro rid
      exact h4 rid
    · intro m hm hmc
      rcases List.mem_append.mp hm with hm | hm
      · exact h5 m hm hmc
      · have hm2 : m = Backend.Node.mk s.nextNodeId nid "online"
            (some (dtNow now)) := by simpa using hm
        subst hm2
        apply List.filter_eq_nil_iff.mpr
        intro e he hand
        rw [Bool.and_eq_true] at hand
        exact absurd (by simpa using hand.1) (Nat.ne_of_lt (h3 e he))
  | cons n rest =>
    have happ : Backend.applyOp s now (Backend.COp.register nid) = s := by
      cases rest with
      | nil =>
        simp [Backend.applyOp, Backend.register_node, hsel,
          Sentinel.scalarOneOrNone, Bind.bind, Except.bind]
      | cons m rest2 =>
        simp [Backend.applyOp, Backend.register_node, hsel,
          Sentinel.scalarOneOrNone, Bind.bind, Except.bind]
    rw [happ]
    exact ⟨h1, h2, h3, h4, h5⟩

theorem inv_updateCount (s : Backend.CState) (now : Int) (nid : String)
    (c : Int) (h : Backend.Inv s) :
    Backend.Inv (Backend.applyOp s now (.updateCount nid c)) := by
  obtain ⟨h1, h2, h3, h4, h5⟩ := h
  cases hsel : Backend.selectNodeByNodeId s nid with
  | nil =>
    have happ : Backend.applyOp s now (Backend.COp.updateCount nid c) = s := by
      simp [Backend.applyOp, Backend.update_detection_count, hsel,
        scalarOneOrNone_nil, Bind.bind, Except.bind]
    rw [happ]
    exact ⟨h1, h2, h3, h4, h5⟩
  | cons n rest =>
    cases rest with
    | cons m rest2 =>
      have happ : Backend.applyOp s now (Backend.COp.updateCount nid c) = s := by
        simp [Backend.applyOp, Backend.update_detection_count, hsel,
          Sentinel.scalarOneOrNone, Bind.bind, Except.bind]
      rw [happ]
      exact ⟨h1, h2, h3, h4, h5⟩
    | nil =>
      by_cases hcov : n.status = "covert"
      · cases hev : Backend.openEventsFor s n.id with
        | nil =>
          have happ : Backend.applyOp s now (Backend.COp.updateCount nid c) = s := by
            simp [Backend.applyOp, Backend.update_detection_count, hsel,
              scalarOneOrNone_singleton, Bind.bind, Except.bind, hcov,
              Backend.sortByActivatedDesc, scalarOneOrNone_sortByKey, hev]
          rw [happ]
          exact ⟨h1, h2, h3, h4, h5⟩
        | cons ev rest3 =>
          cases rest3 with
          | cons ev2 rest4 =>
            have happ : Backend.applyOp s now (Backend.COp.updateCount nid c) = s := by
              simp [Backend.applyOp, Backend.update_detection_count, hsel,
                scalarOneOrNone_singleton, Bind.bind, Except.bind, hcov,
                Backend.sortByActivatedDesc, scalarOneOrNone_sortByKey, hev]
            rw [happ]
            exact ⟨h1, h2, h3, h4, h5⟩
          | nil =>
            have happ : Backend.applyOp s now (Backend.COp.updateCount nid c) =
                { s with events := s.events.map (fun e =>
                    if e.node_id == n.id && e.deactivated_at.isNone then
                      { e with detections_queued := c }
                    else e) } := by
              simp [Backend.applyOp, Backend.update_detection_count, hsel,
                scalarOneOrNone_singleton, Bind.bind, Except.bind, hcov,
                Backend.sortByActivatedDesc, scalarOneOrNone_sortByKey, hev]
            rw [happ]
            have hid : ∀ e : Backend.BlackoutEvent,
                ((fun e => if e.node_id == n.id && e.deactivated_at.isNone then
                    { e with detections_queued := c } else e) e).node_id =
                  e.node_id := by
              intro e
              dsimp only
              by_cases hc : (e.node_id == n.id && e.deactivated_at.isNone) = true
              · rw [if_pos hc]
              · rw [if_neg hc]
            have hde : ∀ e : Backend.BlackoutEvent,
                ((fun e => if e.node_id == n.id && e.deactivated_at.isNone then
                    { e with detections_queued := c } else e) e).deactivated_at.isNone =
                  e.deactivated_at.isNone := by
              intro e
              dsimp only
              by_cases hc : (e.node_id == n.id && e.deactivated_at.isNone) = true
              · rw [if_pos hc]
              · rw [if_neg hc]
            have hmapeq := openEventsFor_map_fields s s.nodes _ hid hde
            refine ⟨h1, h2, ?_, ?_, ?_⟩
            · intro e he
              simp only [List.mem_map] at he
              obtain ⟨x, hx, hxe⟩ := he
              rw [← hxe, hid x]
              exact h3 x hx
            · intro rid
              rw [hmapeq rid, List.length_map]
              exact h4 rid
            · intro m hm hmc
              rw [hmapeq m.id, h5 m hm hmc, List.map_nil]
      · have happ : Backend.applyOp s now (Backend.COp.updateCount nid c) = s := by
          simp [Backend.applyOp, Backend.update_detection_count, hsel,
            scalarOneOrNone_singleton, Bind.bind, Except.bind, hcov]
        rw [happ]
        exact ⟨h1, h2, h3, h4, h5⟩

theorem inv_recover (s : Backend.CState) (now : Int) (t : Int)
    (h : Backend.Inv s) :
    Backend.Inv (Backend.applyOp s now (.recoverStuck t)) := by
  obtain ⟨h1, h2, h3, h4, h5⟩ := h
  by_cases hbad : (((s.nodes.filter (fun n => n.status == "resuming")).flatMap
      (fun n => (s.events.filter (fun e => e.node_id == n.id &&
        Backend.stuckQual (now - t * 60) e)).map (fun e => (n, e)))).any
      (fun p => !Backend.deactAware p.2)) = true
  case pos =>
    have happ : Backend.applyOp s now (Backend.COp.recoverStuck t) = s := by
      simp [Backend.applyOp, Backend.recover_stuck_resuming_nodes, hbad]
    rw [happ]
    exact ⟨h1, h2, h3, h4, h5⟩
  case neg =>
  have happ : Backend.applyOp s now (Backend.COp.recoverStuck t) =
      { s with nodes := s.nodes.map (fun n =>
          if n.status == "resuming" &&
              s.events.any (fun e => e.node_id == n.id &&
                Backend.stuckQual (now - t * 60) e) then
            { n with status := "online" }
          else n) } := by
    simp [Backend.applyOp, Backend.recover_stuck_resuming_nodes, hbad]
  rw [happ]
  have hid : ∀ x : Backend.Node,
      ((fun n => if n.status == "resuming" &&
          s.events.any (fun e => e.node_id == n.id &&
            Backend.stuckQual (now - t * 60) e) then
        { n with status := "online" } else n) x).id = x.id := by
    intro x
    dsimp only
    by_cases hc : (x.status == "resuming" &&
        s.events.any (fun e => e.node_id == x.id &&
          Backend.stuckQual (now - t * 60) e)) = true
    · rw [if_pos hc]
    · rw [if_neg hc]
  refine ⟨?_, ?_, h3, h4, ?_⟩
  · intro m hm
    simp only [List.mem_map] at hm
    obtain ⟨x, hx, hxm⟩ := hm
    rw [← hxm, hid x]
    exact h1 x hx
  · rw [map_nodes_id _ hid]
    exact h2
  · intro m hm hmc
    simp only [List.mem_map] at hm
    obtain ⟨x, hx, hxm⟩ := hm
    by_cases hc : (x.status == "resuming" &&
        s.events.any (fun e => e.node_id == x.id &&
          Backend.stuckQual (now - t * 60) e)) = true
    · rw [if_pos hc] at hxm
      rw [← hxm]
      rw [Bool.and_eq_true] at hc
      have hres : x.status = "resuming" := by simpa using hc.1
      exact h5 x hx (by rw [hres]; decide)
    · rw [if_neg hc] at hxm
      rw [← hxm]
      rw [← hxm] at hmc
      exact h5 x hx hmc

theorem inv_complete (s : Backend.CState) (now : Int) (nid : String)
    (c : Int) (h : Backend.Inv s)
    (hg : ∀ n ∈ s.nodes, n.node_id = nid → n.status ≠ "covert") :
    Backend.Inv (Backend.applyOp s now (.complete nid c)) := by
  obtain ⟨h1, h2, h3, h4, h5⟩ := h
  cases hsel : Backend.selectNodeByNodeId s nid with
  | nil =>
    have happ : Backend.applyOp s now (Backend.COp.complete nid c) = s := by
      simp [Backend.applyOp, Backend.complete_resumption, hsel,
        scalarOneOrNone_nil, Bind.bind, Except.bind]
    rw [happ]
    exact ⟨h1, h2, h3, h4, h5⟩
  | cons n rest =>
    cases rest with
    | cons m rest2 =>
      have happ : Backend.applyOp s now (Backend.COp.complete nid c) = s := by
        simp [Backend.applyOp, Backend.complete_resumption, hsel,
          Sentinel.scalarOneOrNone, Bind.bind, Except.bind]
      rw [happ]
      exact ⟨h1, h2, h3, h4, h5⟩
    | nil =>
      have hn := select_singleton_props hsel
      have hncov : n.status ≠ "covert" := hg n hn.1 hn.2
      have hopen : Backend.openEventsFor s n.id = [] := h5 n hn.1 hncov
      have hfid : ∀ x : Backend.Node,
          ((fun m => if m.node_id == nid then { m with status := "online" }
            else m) x).id = x.id := by
        intro x
        dsimp only
        by_cases hc : (x.node_id == nid) = true
        · rw [if_pos hc]
        · rw [if_neg hc]
      have hnodes5 : ∀ m2, m2 ∈ s.nodes.map (fun m =>
          if m.node_id == nid then { m with status := "online" } else m) →
          m2.status ≠ "covert" → Backend.openEventsFor s m2.id = [] := by
        intro m2 hm2 hm2c
        simp only [List.mem_map] at hm2
        obtain ⟨x, hx, hxm⟩ := hm2
        by_cases hc : (x.node_id == nid) = true
        · rw [if_pos hc] at hxm
          rw [← hxm]
          have hxn : x = n := select_singleton_unique hsel x hx (by simpa using hc)
          rw [hxn]
          exact hopen
        · rw [if_neg hc] at hxm
          rw [← hxm]
          rw [← hxm] at hm2c
          exact h5 x hx hm2c
      have hclause12 : ∀ m2 ∈ s.nodes.map (fun m =>
          if m.node_id == nid then { m with status := "online" } else m),
          m2.id < s.nextNodeId := by
        intro m2 hm2
        simp only [List.mem_map] at hm2
        obtain ⟨x, hx, hxm⟩ := hm2
        rw [← hxm, hfid x]
        exact h1 x hx
      cases hcl : Backend.closedEventsFor s n.id with
      | nil =>
        have happ : Backend.applyOp s now (Backend.COp.complete nid c) =
            { s with nodes := s.nodes.map (fun m =>
                if m.node_id == nid then { m with status := "online" }
                else m) } := by
          simp [Backend.applyOp, Backend.complete_resumption, hsel,
            scalarOneOrNone_singleton, Bind.bind, Except.bind,
            Backend.sortByDeactivatedDesc, scalarOneOrNone_sortByKey, hcl]
        rw [happ]
        exact ⟨hclause12, by rw [map_nodes_id _ hfid]; exact h2, h3, h4, hnodes5⟩
      | cons ev rest3 =>
        cases rest3 with
        | cons ev2 rest4 =>
          have happ : Backend.applyOp s now (Backend.COp.complete nid c) = s := by
            simp [Backend.applyOp, Backend.complete_resumption, hsel,
              scalarOneOrNone_singleton, Bind.bind, Except.bind,
              Backend.sortByDeactivatedDesc, scalarOneOrNone_sortByKey, hcl]
          rw [happ]
          exact ⟨h1, h2, h3, h4, h5⟩
        | nil =>
          have happ : Backend.applyOp s now (Backend.COp.complete nid c) =
              { s with
                events := s.events.map (fun e =>
                  if e.node_id == n.id && e.deactivated_at.isSome then
                    { e with detections_transmitted := some c }
                  else e),
                nodes := s.nodes.map (fun m =>
                  if m.node_id == nid then { m with status := "online" }
                  else m) } := by
            simp [Backend.applyOp, Backend.complete_resumption, hsel,
              scalarOneOrNone_singleton, Bind.bind, Except.bind,
              Backend.sortByDeactivatedDesc, scalarOneOrNone_sortByKey, hcl]
          rw [happ]
          have hid : ∀ e : Backend.BlackoutEvent,
              ((fun e => if e.node_id == n.id && e.deactivated_at.isSome then
                  { e with detections_transmitted := some c } else e) e).node_id =
                e.node_id := by
            intro e
            dsimp only
            by_cases hc : (e.node_id == n.id && e.deactivated_at.isSome) = true
            · rw [if_pos hc]
            · rw [if_neg hc]
          have hde : ∀ e : Backend.BlackoutEvent,
              ((fun e => if e.node_id == n.id && e.deactivated_at.isSome then
                  { e with detections_transmitted := some c } else e)
                e).deactivated_at.isNone = e.deactivated_at.isNone := by
            intro e
            dsimp only
            by_cases hc : (e.node_id == n.id && e.deactivated_at.isSome) = true
            · rw [if_pos hc]
            · rw [if_neg hc]
          have hmapeq := openEventsFor_map_fields s (s.nodes.map (fun m =>
            if m.node_id == nid then { m with status := "online" } else m)) _
            hid hde
          refine ⟨hclause12, by rw [map_nodes_id _ hfid]; exact h2, ?_, ?_, ?_⟩
          · intro e he
            simp only [List.mem_map] at he
            obtain ⟨x, hx, hxe⟩ := he
            rw [← hxe, hid x]
            exact h3 x hx
          · intro rid
            rw [hmapeq rid, List.length_map]
            exact h4 rid
          · intro m2 hm2 hm2c
            rw [hmapeq m2.id, hnodes5 m2 hm2 hm2c, List.map_nil]

theorem inv_activate (s : Backend.CState) (now : Int) (nid : String)
    (opid r : Option String) (h : Backend.Inv s) :
    Backend.Inv (Backend.applyOp s now (.activate nid opid r)) := by
  obtain ⟨h1, h2, h3, h4, h5⟩ := h
  cases hsel : Backend.selectNodeByNodeId s nid with
  | nil =>
    have happ : Backend.applyOp s now (Backend.COp.activate nid opid r) = s := by
      simp [Backend.applyOp, Backend.activate_blackout, hsel,
        scalarOneOrNone_nil, Bind.bind, Except.bind]
    rw [happ]
    exact ⟨h1, h2, h3, h4, h5⟩
  | cons n rest =>
    cases rest with
    | cons m rest2 =>
      have happ : Backend.applyOp s now (Backend.COp.activate nid opid r) = s := by
        simp [Backend.applyOp, Backend.activate_blackout, hsel,
          Sentinel.scalarOneOrNone, Bind.bind, Except.bind]
      rw [happ]
      exact ⟨h1, h2, h3, h4, h5⟩
    | nil =>
      have hn := select_singleton_props hsel
      by_cases hcov : (n.status == "covert") = true
      · have happ : Backend.applyOp s now (Backend.COp.activate nid opid r) = s := by
          simp [Backend.applyOp, Backend.activate_blackout, hsel,
            scalarOneOrNone_singleton, Bind.bind, Except.bind, hcov]
        rw [happ]
        exact ⟨h1, h2, h3, h4, h5⟩
      · have hncov : n.status ≠ "covert" := by simpa using hcov
        have happ : Backend.applyOp s now (Backend.COp.activate nid opid r) =
            { s with
              events := s.events ++
                [Backend.BlackoutEvent.mk s.nextEventId n.id (dtNow now) none
                  opid r 0 none none],
              nodes := s.nodes.map (fun m =>
                if m.node_id == nid then { m with status := "covert" } else m),
              nextEventId := s.nextEventId + 1 } := by
          simp [Backend.applyOp, Backend.activate_blackout, hsel,
            scalarOneOrNone_singleton, Bind.bind, Except.bind, hcov]
        rw [happ]
        have hfid : ∀ x : Backend.Node,
            ((fun m => if m.node_id == nid then { m with status := "covert" }
              else m) x).id = x.id := by
          intro x
          dsimp only
          by_cases hc : (x.node_id == nid) = true
          · rw [if_pos hc]
          · rw [if_neg hc]
        have hopen : Backend.openEventsFor s n.id = [] := h5 n hn.1 hncov
        refine ⟨?_, ?_, ?_, ?_, ?_⟩
        · intro m2 hm2
          simp only [List.mem_map] at hm2
          obtain ⟨x, hx, hxm⟩ := hm2
          rw [← hxm, hfid x]
          exact h1 x hx
        · rw [map_nodes_id _ hfid]
          exact h2
        · intro e he
          rcases List.mem_append.mp he with he | he
          · exact h3 e he
          · have he2 : e = Backend.BlackoutEvent.mk s.nextEventId n.id (dtNow now)
                none opid r 0 none none := by simpa using he
            rw [he2]
            exact h1 n hn.1
        · intro rid
          show (List.filter _ (s.events ++
            [Backend.BlackoutEvent.mk s.nextEventId n.id (dtNow now) none
              opid r 0 none none])).length ≤ 1
          rw [List.filter_append]
          by_cases hrid : rid = n.id
          · subst hrid
            rw [show s.events.filter (fun e =>
                e.node_id == n.id && e.deactivated_at.isNone) = [] from hopen]
            simp
          · have hnil : List.filter (fun e =>
                e.node_id == rid && e.deactivated_at.isNone)
                [Backend.BlackoutEvent.mk s.nextEventId n.id (dtNow now) none
                  opid r 0 none none] = [] := by
              apply List.filter_eq_nil_iff.mpr
              intro e he
              have he2 : e = Backend.BlackoutEvent.mk s.nextEventId n.id
                  (dtNow now) none opid r 0 none none := by simpa using he
              rw [he2]
              simp only [Bool.and_eq_true, beq_iff_eq, not_and]
              intro hcon
              exact absurd hcon.symm hrid
            rw [hnil, List.append_nil]
            exact h4 rid
        · intro m2 hm2 hm2c
          simp only [List.mem_map] at hm2
          obtain ⟨x, hx, hxm⟩ := hm2
          by_cases hc : (x.node_id == nid) = true
          · rw [if_pos hc] at hxm
            rw [← hxm] at hm2c
            exact absurd rfl hm2c
          · rw [if_neg hc] at hxm
            rw [← hxm] at hm2c ⊢
            have hxn : x ≠ n := by
              intro hxeq
              rw [hxeq] at hc
              exact hc (by simpa using hn.2)
            have hxid : x.id ≠ n.id := by
              intro hideq
              exact hxn (List.inj_on_of_nodup_map h2 hx hn.1 hideq)
            show List.filter _ (s.events ++
              [Backend.BlackoutEvent.mk s.nextEventId n.id (dtNow now) none
                opid r 0 none none]) = []
            rw [List.filter_append]
            have hold : s.events.filter (fun e =>
                e.node_id == x.id && e.deactivated_at.isNone) = [] :=
              h5 x hx hm2c
            have hnew : List.filter (fun e =>
                e.node_id == x.id && e.deactivated_at.isNone)
                [Backend.BlackoutEvent.mk s.nextEventId n.id (dtNow now) none
                  opid r 0 none none] = [] := by
              apply List.filter_eq_nil_iff.mpr
              intro e he
              have he2 : e = Backend.BlackoutEvent.mk s.nextEventId n.id
                  (dtNow now) none opid r 0 none none := by simpa using he
              rw [he2]
              simp only [Bool.and_eq_true, beq_iff_eq, not_and]
              intro hcon
              exact absurd hcon.symm hxid
            rw [hold, hnew]
            rfl

theorem inv_deactivate (s : Backend.CState) (now : Int) (nid : String)
    (h : Backend.Inv s) :
    Backend.Inv (Backend.applyOp s now (.deactivate nid)) := by
  obtain ⟨h1, h2, h3, h4, h5⟩ := h
  cases hsel : Backend.selectNodeByNodeId s nid with
  | nil =>
    have happ : Backend.applyOp s now (Backend.COp.deactivate nid) = s := by
      simp [Backend.applyOp, Backend.deactivate_blackout, hsel,
        scalarOneOrNone_nil, Bind.bind, Except.bind]
    rw [happ]
    exact ⟨h1, h2, h3, h4, h5⟩
  | cons n rest =>
    cases rest with
    | cons m rest2 =>
      have happ : Backend.applyOp s now (Backend.COp.deactivate nid) = s := by
        simp [Backend.applyOp, Backend.deactivate_blackout, hsel,
          Sentinel.scalarOneOrNone, Bind.bind, Except.bind]
      rw [happ]
      exact ⟨h1, h2, h3, h4, h5⟩
    | nil =>
      have hn := select_singleton_props hsel
      by_cases hcov : n.status = "covert"
      · cases hev : Backend.openEventsFor s n.id with
        | nil =>
          have happ : Backend.applyOp s now (Backend.COp.deactivate nid) = s := by
            simp [Backend.applyOp, Backend.deactivate_blackout, hsel,
              scalarOneOrNone_singleton, Bind.bind, Except.bind, hcov,
              Backend.sortByActivatedDesc, scalarOneOrNone_sortByKey, hev]
          rw [happ]
          exact ⟨h1, h2, h3, h4, h5⟩
        | cons ev rest3 =>
          cases rest3 with
          | cons ev2 rest4 =>
            have happ : Backend.applyOp s now (Backend.COp.deactivate nid) = s := by
              simp [Backend.applyOp, Backend.deactivate_blackout, hsel,
                scalarOneOrNone_singleton, Bind.bind, Except.bind, hcov,
                Backend.sortByActivatedDesc, scalarOneOrNone_sortByKey, hev]
            rw [happ]
            exact ⟨h1, h2, h3, h4, h5⟩
          | nil =>
            have happ : Backend.applyOp s now (Backend.COp.deactivate nid) =
                { s with
                  events := s.events.map (fun e =>
                    if e.node_id == n.id && e.deactivated_at.isNone then
                      { e with deactivated_at := some (dtNow now),
                               duration_seconds :=
                                 some (now - ev.activated_at.normalizeUTC.val) }
                    else e),
                  nodes := s.nodes.map (fun m =>
                    if m.node_id == nid then { m with status := "resuming" }
                    else m) } := by
              simp [Backend.applyOp, Backend.deactivate_blackout, hsel,
                scalarOneOrNone_singleton, Bind.bind, Except.bind, hcov,
                Backend.sortByActivatedDesc, scalarOneOrNone_sortByKey, hev]
            rw [happ]
            have hfid : ∀ x : Backend.Node,
                ((fun m => if m.node_id == nid then { m with status := "resuming" }
                  else m) x).id = x.id := by
              intro x
              dsimp only
              by_cases hc : (x.node_id == nid) = true
              · rw [if_pos hc]
              · rw [if_neg hc]
            have hgid : ∀ e : Backend.BlackoutEvent,
                ((fun e => if e.node_id == n.id && e.deactivated_at.isNone then
                    { e with deactivated_at := some (dtNow now),
                             duration_seconds :=
                               some (now - ev.activated_at.normalizeUTC.val) }
                  else e) e).node_id = e.node_id := by
              intro e
              dsimp only
              by_cases hc : (e.node_id == n.id && e.deactivated_at.isNone) = true
              · rw [if_pos hc]
              · rw [if_neg hc]
            have hclosed : ∀ rid2 : Nat, rid2 = n.id →
                List.filter (fun e => e.node_id == rid2 && e.deactivated_at.isNone)
                  (s.events.map (fun e =>
                    if e.node_id == n.id && e.deactivated_at.isNone then
                      { e with deactivated_at := some (dtNow now),
                               duration_seconds :=
                                 some (now - ev.activated_at.normalizeUTC.val) }
                    else e)) = [] := by
              intro rid2 hrid2
              subst hrid2
              apply List.filter_eq_nil_iff.mpr
              intro x hxm
              simp only [List.mem_map] at hxm
              obtain ⟨e, _, hxe⟩ := hxm
              by_cases hc : (e.node_id == n.id && e.deactivated_at.isNone) = true
              · rw [if_pos hc] at hxe
                rw [← hxe]
                simp
              · rw [if_neg hc] at hxe
                rw [← hxe]
                exact hc
            have hother : ∀ rid2 : Nat, rid2 ≠ n.id →
                List.filter (fun e => e.node_id == rid2 && e.deactivated_at.isNone)
                  (s.events.map (fun e =>
                    if e.node_id == n.id && e.deactivated_at.isNone then
                      { e with deactivated_at := some (dtNow now),
                               duration_seconds :=
                                 some (now - ev.activated_at.normalizeUTC.val) }
                    else e)) =
                List.filter (fun e => e.node_id == rid2 && e.deactivated_at.isNone)
                  s.events := by
              intro rid2 hrid2
              rw [List.filter_map]
              have hstep1 : List.filter ((fun e =>
                  e.node_id == rid2 && e.deactivated_at.isNone) ∘ (fun e =>
                    if e.node_id == n.id && e.deactivated_at.isNone then
                      { e with deactivated_at := some (dtNow now),
                               duration_seconds :=
                                 some (now - ev.activated_at.normalizeUTC.val) }
                    else e)) s.events =
                  List.filter (fun e =>
                    e.node_id == rid2 && e.deactivated_at.isNone) s.events := by
                apply List.filter_congr
                intro e _
                by_cases hc : (e.node_id == n.id && e.deactivated_at.isNone) = true
                · simp only [Function.comp, if_pos hc]
                  rw [Bool.and_eq_true] at hc
                  have hne : e.node_id = n.id := by simpa using hc.1
                  simp [hne, hrid2, Ne.symm hrid2]
                · simp only [Function.comp, if_neg hc]
              rw [hstep1]
              refine (List.map_congr_left ?_).trans (List.map_id _)
              intro e hef
              rw [List.mem_filter, Bool.and_eq_true] at hef
              have hne : e.node_id = rid2 := by simpa using hef.2.1
              show (if (e.node_id == n.id && e.deactivated_at.isNone) = true
                then _ else e) = e
              apply if_neg
              rw [Bool.and_eq_true, not_and]
              intro hcon
              exact absurd ((by simpa using hcon : e.node_id = n.id) ▸ hne.symm)
                hrid2
            refine ⟨?_, ?_, ?_, ?_, ?_⟩
            · intro m2 hm2
              simp only [List.mem_map] at hm2
              obtain ⟨x, hx, hxm⟩ := hm2
              rw [← hxm, hfid x]
              exact h1 x hx
            · rw [map_nodes_id _ hfid]
              exact h2
            · intro e he
              simp only [List.mem_map] at he
              obtain ⟨x, hx, hxe⟩ := he
              rw [← hxe, hgid x]
              exact h3 x hx
            · intro rid
              by_cases hrid : rid = n.id
              · have h0 := hclosed rid hrid
                show (List.filter _ _).length ≤ 1
                rw [h0]
                decide
              · have h0 := hother rid hrid
                show (List.filter _ _).length ≤ 1
                rw [h0]
                exact h4 rid
            · intro m2 hm2 hm2c
              simp only [List.mem_map] at hm2
              obtain ⟨x, hx, hxm⟩ := hm2
              by_cases hc : (x.node_id == nid) = true
              · rw [if_pos hc] at hxm
                rw [← hxm]
                have hxeq : x = n :=
                  select_singleton_unique hsel x hx (by simpa using hc)
                have h0 := hclosed x.id (by rw [hxeq])
                show List.filter _ _ = []
                exact h0
              · rw [if_neg hc] at hxm
                rw [← hxm] at hm2c ⊢
                have hxn : x ≠ n := by
                  intro hxeq
                  rw [hxeq] at hc
                  exact hc (by simpa using hn.2)
                have hxid : x.id ≠ n.id := by
                  intro hideq
                  exact hxn (List.inj_on_of_nodup_map h2 hx hn.1 hideq)
                have h0 := hother x.id hxid
                show List.filter _ _ = []
                rw [h0]
                exact h5 x hx hm2c
      · have happ : Backend.applyOp s now (Backend.COp.deactivate nid) = s := by
          simp [Backend.applyOp, Backend.deactivate_blackout, hsel,
            scalarOneOrNone_singleton, Bind.bind, Except.bind, hcov]
        rw [happ]
        exact ⟨h1, h2, h3, h4, h5⟩

/-- C1 counterexample: the claim asserts at most one open episode per node in
*every* reachable state, but `complete_resumption` never checks the node's
state: register a node, activate it (opening episode 1), call `complete` —
which flips the still-covert node to `online` while episode 1 stays open —
and activate again.  The resulting state is reachable through the public
operations yet holds two open episodes for node row 1. -/
theorem c1_counterexample_two_open_episodes :
    Backend.Reachable
      (Backend.applyOp (Backend.applyOp (Backend.applyOp (Backend.applyOp
        Backend.initState 0 (.register "n1"))
        0 (.activate "n1" none none))
        0 (.complete "n1" 0))
        1 (.activate "n1" none none)) ∧
    (Backend.openEventsFor
      (Backend.applyOp (Backend.applyOp (Backend.applyOp (Backend.applyOp
        Backend.initState 0 (.register "n1"))
        0 (.activate "n1" none none))
        0 (.complete "n1" 0))
        1 (.activate "n1" none none)) 1).length = 2 := by
  constructor
  · exact Backend.Reachable.step _ 1 _ (Backend.Reachable.step _ 0 _
      (Backend.Reachable.step _ 0 _ (Backend.Reachable.step _ 0 _
        Backend.Reachable.init)))
  · rfl

/-- C1 amended: in every state reachable while `complete` is only invoked on
a node that is not currently `covert` (the reconciliation protocol calls it
for a `resuming` node), every node row has at most one open (null
deactivation time) blackout episode; and `activate_blackout` on a node whose
status is already `covert` raises the already-in-blackout `ValueError`,
creating no episode and changing no state. -/
theorem c1_amended_one_open_episode :
    (∀ s, Backend.GuardedReachable s →
      ∀ rid : Nat, (Backend.openEventsFor s rid).length ≤ 1) ∧
    (∀ (s : Backend.CState) (now : Int) (nid : String)
      (opid r : Option String) (n : Backend.Node),
      Backend.selectNodeByNodeId s nid = [n] → n.status = "covert" →
      Backend.activate_blackout s now nid opid r =
        .error ("Node already in blackout: " ++ nid) ∧
      Backend.applyOp s now (.activate nid opid r) = s) := by
  constructor
  · have hInv : ∀ s, Backend.GuardedReachable s → Backend.Inv s := by
      intro s hs
      induction hs with
      | init => exact inv_init
      | step s now op hs hg ih =>
        cases op with
        | register nid => exact inv_register s now nid ih
        | activate nid o r => exact inv_activate s now nid o r ih
        | deactivate nid => exact inv_deactivate s now nid ih
        | updateCount nid c => exact inv_updateCount s now nid c ih
        | complete nid c => exact inv_complete s now nid c ih hg
        | recoverStuck t => exact inv_recover s now t ih
    intro s hs rid
    exact (hInv s hs).2.2.2.1 rid
  · intro s now nid opid r n hsel hst
    have herr : Backend.activate_blackout s now nid opid r =
        .error ("Node already in blackout: " ++ nid) := by
      simp [Backend.activate_blackout, hsel, scalarOneOrNone_singleton,
        Bind.bind, Except.bind, hst]
    refine ⟨herr, ?_⟩
    simp [Backend.applyOp, herr]

/-- Witness for C1's amended theorem: the empty store is guarded-reachable
and satisfies the bound, and activating an already-covert node errors. -/
theorem c1_witness :
    (Backend.openEventsFor Backend.initState 1).length ≤ 1 ∧
    Backend.activate_blackout
      { nodes := [{ id := 1, node_id := "n1", status := "covert",
                    last_heartbeat := none }],
        events := [], items := [], nextNodeId := 2, nextEventId := 1,
        nextItemId := 1 } 5 "n1" none none =
      .error ("Node already in blackout: " ++ "n1") :=
  ⟨c1_amended_one_open_episode.1 Backend.initState
      Backend.GuardedReachable.init 1,
   (c1_amended_one_open_episode.2
      { nodes := [{ id := 1, node_id := "n1", status := "covert",
                    last_heartbeat := none }],
        events := [], items := [], nextNodeId := 2, nextEventId := 1,
        nextItemId := 1 } 5 "n1" none none
      { id := 1, node_id := "n1", status := "covert", last_heartbeat := none }
      (by decide) rfl).1⟩

end Sentinel
